import Mathlib

/-!
Verification of the scoring and aggregation engine of the
agent-readiness-audit repository (Python), via a shallow embedding.

Conventions of the embedding:
- Python floats are modelled as exact rationals (ℚ).  All claim-relevant
  arithmetic here is small additions, multiplications and divisions whose
  comparisons are far from binary rounding boundaries.
- Python dicts that preserve insertion order are modelled as association
  lists (List (String × _)); dict.get
  is modelled by alookup, in-place value mutation by alupdate.
- The probe of a check performs filesystem reads; a probe execution is
  abstracted as its outcome: Except String BaseCheckResult, where
  Except.error carries the message of the raised exception
  (checks/base.py run_check catches every exception).
- pydantic BaseModel constructors ignore unexpected keyword arguments
  (default extra behaviour).  models.CheckResult has no gate_for and no
  confidence field, so the gate_for and confidence arguments passed by
  checks/base.py to_model and run_check are dropped; the embedding makes
  this visible by taking and ignoring those arguments.
- datetime.now() in RepoResult.scanned_at is modelled by an integer
  timestamp parameter given to scan_repo.
-/

namespace ARA

/-- Association-list lookup, modelling Python dict.get on insertion-ordered
dicts with unique keys. -/
def alookup {α : Type} : List (String × α) → String → Option α
  | [], _ => none
  | (k, v) :: rest, key => if k = key then some v else alookup rest key

/-- Association-list value update at an existing key, modelling in-place
mutation of a dict entry. -/
def alupdate {α : Type} (f : α → α) : List (String × α) → String → List (String × α)
  | [], _ => []
  | (k, v) :: rest, key =>
    if k = key then (k, f v) :: rest else (k, v) :: alupdate f rest key

/-- models.py CheckStatus. -/
inductive CheckStatus where
  | PASSED
  | FAILED
  | UNKNOWN
  | SKIPPED
  | PARTIAL
deriving DecidableEq, Repr

/-- models.py ReadinessLevel (v1 compatibility). -/
inductive ReadinessLevel where
  | HUMAN_ONLY
  | ASSISTED
  | SEMI_AUTONOMOUS
  | AGENT_READY
deriving DecidableEq, Repr

/-- models.py AgentGrade (v3). -/
inductive AgentGrade where
  | AGENT_FIRST
  | AGENT_COMPATIBLE
  | HUMAN_FIRST_RISKY
  | AGENT_HOSTILE
deriving DecidableEq, Repr

/-- models.py AGENT_GRADE_DESCRIPTIONS. -/
def AGENT_GRADE_DESCRIPTIONS : List (String × String) :=
  [("Agent-First", "Repo is optimized for autonomous agent operation. Agents can read, modify, and execute workflows safely."),
   ("Agent-Compatible", "Repo supports agent operation with minor friction. Most agent tasks will succeed."),
   ("Human-First, Agent-Risky", "Repo works for humans but has significant agent risks. Agents may fail due to ambiguity or missing guardrails."),
   ("Agent-Hostile", "Repo is unsuitable for agent operation. Agents should not be trusted to work in this environment.")]

/-- The string value of an AgentGrade (the enum values in models.py). -/
def AgentGrade.value : AgentGrade → String
  | .AGENT_FIRST => "Agent-First"
  | .AGENT_COMPATIBLE => "Agent-Compatible"
  | .HUMAN_FIRST_RISKY => "Human-First, Agent-Risky"
  | .AGENT_HOSTILE => "Agent-Hostile"

/-- models.py MATURITY_NAMES. -/
def MATURITY_NAMES : List (Nat × String) :=
  [(1, "Functional"), (2, "Documented"), (3, "Standardized"),
   (4, "Optimized"), (5, "Autonomous")]

/-- models.py DOMAIN_WEIGHTS: the static default weight of each domain. -/
def DOMAIN_WEIGHTS : List (String × ℚ) :=
  [("structure", 15/100),
   ("interfaces", 20/100),
   ("determinism", 20/100),
   ("security", 20/100),
   ("testing", 15/100),
   ("ergonomics", 10/100)]

/-- models.py DOMAIN_DESCRIPTIONS. -/
def DOMAIN_DESCRIPTIONS : List (String × String) :=
  [("structure", "Can an agent quickly understand what this repo is and how it is organized?"),
   ("interfaces", "Are inputs, outputs, and side effects machine-verifiable?"),
   ("determinism", "Can an agent replay execution safely and get the same result?"),
   ("security", "Can an agent operate without leaking secrets or damaging external systems?"),
   ("testing", "Can an agent verify correctness autonomously?"),
   ("ergonomics", "Is the repo pleasant for an agent to work in?")]

/-- models.py CATEGORY_TO_DOMAIN. -/
def CATEGORY_TO_DOMAIN : List (String × String) :=
  [("discoverability", "structure"),
   ("deterministic_setup", "determinism"),
   ("build_and_run", "ergonomics"),
   ("test_feedback_loop", "testing"),
   ("static_guardrails", "interfaces"),
   ("observability", "ergonomics"),
   ("ci_enforcement", "ergonomics"),
   ("security_and_governance", "security")]

/-- models.py PILLAR_TO_DOMAIN. -/
def PILLAR_TO_DOMAIN : List (String × String) :=
  [("environment_determinism", "determinism"),
   ("fast_guardrails", "interfaces"),
   ("type_contracts", "interfaces"),
   ("verification_trust", "testing"),
   ("verification_speed", "testing"),
   ("documentation_structure", "structure"),
   ("inline_documentation", "structure"),
   ("contribution_contract", "ergonomics"),
   ("agentic_security", "security"),
   ("secret_hygiene", "security"),
   ("telemetry_tracing", "ergonomics"),
   ("structured_logging_cost", "ergonomics"),
   ("eval_frameworks", "testing"),
   ("golden_datasets", "testing"),
   ("distribution_dx", "ergonomics")]

/-- models.py GATE_CHECKS: the gate check names of each maturity level. -/
def GATE_CHECKS : List (Nat × List String) :=
  [(3, ["dependency_manifest_exists",
        "lockfile_exists",
        "ci_workflow_present",
        "linter_config_present",
        "tests_directory_or_config_exists",
        "readme_has_setup_section",
        "readme_has_test_instructions"]),
   (4, ["precommit_present",
        "fast_linter_python",
        "machine_readable_coverage",
        "test_splitting",
        "python_type_hint_coverage",
        "mypy_strictness"]),
   (5, ["opentelemetry_present",
        "structured_logging_present",
        "eval_framework_detect",
        "golden_dataset_present",
        "promptfoo_present"])]

/-- The names held by the check registry (checks/base.py _CHECK_REGISTRY)
after the package initializer checks/__init__.py has imported every check
module: the name= argument of each @check registration in the imported
modules agent_ergonomics, agentic_security, build_and_run, ci_enforcement,
determinism_advanced, deterministic_setup, discoverability, documentation,
fast_guardrails, interfaces_contracts, observability, security_advanced,
security_governance, static_guardrails, structure_discoverability,
test_feedback_loop, testing_validation and type_contracts. -/
def ALL_REGISTERED_CHECK_NAMES : List String :=
  ["agent_manifest_present", "api_schema_defined", "ci_enforces_tests",
   "ci_runs_tests_or_lint", "ci_workflow_present", "clear_error_messages",
   "cli_typed_args", "command_reproducibility", "contract_versioning",
   "contribution_rules_explicit", "dependency_manifest_exists",
   "deterministic_commands", "diataxis_structure", "docstring_coverage_python",
   "documented_commands_present", "entrypoint_clear", "env_example_exists",
   "env_example_or_secrets_docs_present", "eval_framework_detect",
   "fast_linter_python", "file_tree_organized", "flake_awareness_pytest",
   "formatter_config_present", "gitignore_present", "golden_dataset_present",
   "golden_fixtures_present", "linter_config_present", "lockfile_exists",
   "logging_present", "machine_readable_configs", "machine_readable_coverage",
   "make_or_task_runner_exists", "mypy_strictness", "network_mockable",
   "no_global_state_mutation", "no_hardcoded_secrets",
   "no_hidden_critical_logic", "no_implicit_dict_schemas",
   "no_sensitive_files_committed", "opentelemetry_present",
   "package_scripts_or_equivalent", "precommit_present", "predictable_layout",
   "prod_test_boundary", "prompt_secret_scanning", "promptfoo_present",
   "python_type_hint_coverage", "random_seed_injectable", "readme_answers_how",
   "readme_answers_what", "readme_exists", "readme_has_setup_section",
   "readme_has_test_instructions", "return_types_documented",
   "runtime_version_declared", "security_policy_present_or_baseline",
   "sensitive_files_gitignored", "structured_errors_present",
   "structured_logging_present", "test_command_detectable",
   "test_command_has_timeout", "test_coverage_tracked",
   "test_ordering_independent", "test_splitting",
   "tests_directory_or_config_exists", "tests_isolated",
   "tests_no_network_required", "time_abstraction", "typecheck_config_present",
   "typed_interfaces"]

/-- models.py CheckResult (the pydantic model).  Its fields are exactly
name, category, status, evidence, suggestion, weight, pillar, gate_level;
it has no gate_for and no confidence field. -/
structure ModelCheckResult where
  name : String
  category : String
  status : CheckStatus
  evidence : String := ""
  suggestion : String := ""
  weight : ℚ := 1
  pillar : String := ""
  gate_level : Option Nat := none
deriving DecidableEq, Repr

/-- models.py CheckResult.passed: true iff status is PASSED. -/
def ModelCheckResult.passed (r : ModelCheckResult) : Bool :=
  r.status = CheckStatus.PASSED

/-- checks/base.py CheckResult (the dataclass returned by probe functions).
The source field named partial is embedded as partialFlag. -/
structure BaseCheckResult where
  passed : Bool
  evidence : String := ""
  suggestion : String := ""
  partialFlag : Bool := false
  confidence : String := "HIGH"
deriving DecidableEq, Repr

/-- checks/base.py CheckDefinition.  The probe function is not embedded
(scan_repo receives probe outcomes instead).  The domain field is read by
scanner.py line 250 (check_def.domain) and set by the domain= argument of
the @check registrations in the v3 check modules; the checks/base.py
dataclass snapshot predates that field, so it is embedded here with
default "" (absent). -/
structure CheckDefinition where
  name : String
  category : String
  description : String := ""
  pillar : String := ""
  weight : ℚ := 1
  enabled : Bool := true
  gate_for : List Nat := []
  domain : String := ""
deriving DecidableEq, Repr

/-- checks/base.py CheckResult.to_model.  The gate_for argument is passed
by the source to the pydantic constructor of models.CheckResult, which has
no such field and ignores it (as it ignores confidence); hence the
returned record keeps gate_level at its default none. -/
def to_model (r : BaseCheckResult) (name category : String) (pillar : String)
    (weight : ℚ) (_gate_for : List Nat) : ModelCheckResult :=
  let status :=
    if r.passed then CheckStatus.PASSED
    else if r.partialFlag then CheckStatus.PARTIAL
    else CheckStatus.FAILED
  { name := name
    category := category
    pillar := pillar
    status := status
    evidence := r.evidence
    suggestion := r.suggestion
    weight := weight
    gate_level := none }

/-- checks/base.py run_check: runs a probe inside a failure boundary.  The
probe execution is abstracted by its outcome; Except.error e is the probe
raising an exception whose string form is e.  On error the source builds
models.CheckResult with status UNKNOWN, an evidence text describing the
error, the suggestion below, and weight, pillar and gate_for taken from
the definition; the gate_for keyword is ignored by the pydantic model, so
gate_level stays none. -/
def run_check (check_def : CheckDefinition) (outcome : Except String BaseCheckResult) :
    ModelCheckResult :=
  match outcome with
  | .ok result =>
    to_model result check_def.name check_def.category check_def.pillar
      check_def.weight check_def.gate_for
  | .error e =>
    { name := check_def.name
      category := check_def.category
      pillar := check_def.pillar
      status := CheckStatus.UNKNOWN
      evidence := "Check failed with error: " ++ e
      suggestion := "Investigate the error and ensure the repository is accessible."
      weight := check_def.weight
      gate_level := none }

/-- models.py PillarScore. -/
structure PillarScore where
  name : String
  score : ℚ := 0
  max_points : ℚ := 2
  checks : List String := []
  passed_checks : Nat := 0
  total_checks : Nat := 0
deriving DecidableEq, Repr

/-- models.py DomainScore. -/
structure DomainScore where
  name : String
  description : String := ""
  score : ℚ := 0
  weight : ℚ := 0
  weighted_score : ℚ := 0
  checks : List ModelCheckResult := []
  passed_checks : Nat := 0
  total_checks : Nat := 0
  evidence : List String := []
  red_flags : List String := []
deriving DecidableEq, Repr

/-- models.py GateStatus. -/
structure GateStatus where
  level : Nat
  passed : Bool := true
  required_checks : List String := []
  failed_checks : List String := []
deriving DecidableEq, Repr

/-- models.py CategoryScore. -/
structure CategoryScore where
  name : String
  description : String := ""
  score : ℚ := 0
  max_points : ℚ := 2
  checks : List ModelCheckResult := []
  passed_checks : Nat := 0
  total_checks : Nat := 0
deriving DecidableEq, Repr

/-- models.py RepoResult.  scanned_at is the datetime.now() timestamp at
construction, modelled as an integer. -/
structure RepoResult where
  repo_path : String
  repo_name : String
  score_total : ℚ := 0
  max_score : ℚ := 16
  level : ReadinessLevel := ReadinessLevel.HUMAN_ONLY
  maturity_level : Nat := 1
  maturity_name : String := "Functional"
  category_scores : List (String × CategoryScore) := []
  pillar_scores : List (String × PillarScore) := []
  gates : List (String × GateStatus) := []
  failed_checks : List ModelCheckResult := []
  passed_checks : List ModelCheckResult := []
  fix_first : List String := []
  scanned_at : Int := 0
  domain_scores : List (String × DomainScore) := []
  overall_score : ℚ := 0
  grade : AgentGrade := AgentGrade.AGENT_HOSTILE
  grade_description : String := ""
  remediation_items : List String := []
deriving DecidableEq, Repr

/-- models.py CategoryConfig. -/
structure CategoryConfig where
  enabled : Bool := true
  max_points : ℚ := 2
  description : String := ""
deriving DecidableEq, Repr

/-- models.py CheckConfig. -/
structure CheckConfig where
  enabled : Bool := true
  weight : ℚ := 1
deriving DecidableEq, Repr

/-- models.py DomainConfig. -/
structure DomainConfig where
  enabled : Bool := true
  weight : ℚ := 0
  description : String := ""
deriving DecidableEq, Repr

/-- models.py AuditConfig, restricted to the fields read by the scoring
engine (scan_repo reads categories, domains and checks). -/
structure AuditConfig where
  scale_points_total : Nat := 16
  minimum_passing_score : Nat := 10
  minimum_overall_score : ℚ := 60
  categories : List (String × CategoryConfig) := []
  domains : List (String × DomainConfig) := []
  checks : List (String × CheckConfig) := []
deriving DecidableEq, Repr

/-- models.py AuditConfig.default: every category enabled with max_points 2,
every domain enabled with its DOMAIN_WEIGHTS weight. -/
def AuditConfig.default : AuditConfig :=
  { categories :=
      [("discoverability", { description := "Repo orientation: README presence and basic onboarding clarity" }),
       ("deterministic_setup", { description := "Reproducible dependency setup and pinning" }),
       ("build_and_run", { description := "Standard commands exist for build/test/lint/format" }),
       ("test_feedback_loop", { description := "Tests exist and are runnable with reasonable defaults" }),
       ("static_guardrails", { description := "Linters/formatters/types reduce ambiguity for agents" }),
       ("observability", { description := "Logging/metrics help agents validate behavior changes" }),
       ("ci_enforcement", { description := "CI exists and validates changes" }),
       ("security_and_governance", { description := "Baseline hygiene around secrets and contribution policy" })]
    domains :=
      [("structure", { weight := 15/100, description := (alookup DOMAIN_DESCRIPTIONS "structure").getD "" }),
       ("interfaces", { weight := 20/100, description := (alookup DOMAIN_DESCRIPTIONS "interfaces").getD "" }),
       ("determinism", { weight := 20/100, description := (alookup DOMAIN_DESCRIPTIONS "determinism").getD "" }),
       ("security", { weight := 20/100, description := (alookup DOMAIN_DESCRIPTIONS "security").getD "" }),
       ("testing", { weight := 15/100, description := (alookup DOMAIN_DESCRIPTIONS "testing").getD "" }),
       ("ergonomics", { weight := 10/100, description := (alookup DOMAIN_DESCRIPTIONS "ergonomics").getD "" })]
    checks := [] }

/-- models.py get_level_for_score (v1 compatibility). -/
def get_level_for_score (score : ℚ) : ReadinessLevel :=
  if score ≤ 5 then ReadinessLevel.HUMAN_ONLY
  else if score ≤ 9 then ReadinessLevel.ASSISTED
  else if score ≤ 13 then ReadinessLevel.SEMI_AUTONOMOUS
  else ReadinessLevel.AGENT_READY

/-- models.py get_maturity_for_score: the score-implied maturity level. -/
def get_maturity_for_score (score : ℚ) : Nat :=
  if score ≤ 4 then 1
  else if score ≤ 7 then 2
  else if score ≤ 11 then 3
  else if score ≤ 14 then 4
  else 5

/-- The loop body condition of calculate_maturity_with_gates: the source
reads, for a level, whether its gate key is present and its GateStatus is
not passed. -/
def gate_failed_at (gates : List (String × GateStatus)) (level : Nat) : Bool :=
  match alookup gates ("level_" ++ toString level) with
  | some g => !g.passed
  | none => false

/-- The downward for-loop of models.py calculate_maturity_with_gates:
range(score_based_level, 2, -1) visits the levels score_based_level, ...,
3, and a failing gate at a visited level overwrites the accumulator with
level - 1.  The second argument is the level about to be visited; levels
below 3 leave the accumulator unchanged, matching the range stop. -/
def gate_walk (gates : List (String × GateStatus)) : Nat → Nat → Nat
  | acc, 0 => acc
  | acc, l + 1 =>
    if l + 1 < 3 then gate_walk gates acc l
    else gate_walk gates (if gate_failed_at gates (l + 1) then l else acc) l

/-- models.py calculate_maturity_with_gates. -/
def calculate_maturity_with_gates (score_based_level : Nat)
    (gates : List (String × GateStatus)) : Nat :=
  max 1 (gate_walk gates score_based_level score_based_level)

/-- models.py get_maturity_name. -/
def get_maturity_name (level : Nat) : String :=
  match MATURITY_NAMES.lookup level with
  | some n => n
  | none => "Unknown"

/-- models.py get_grade_for_score (v3 thresholds). -/
def get_grade_for_score (score : ℚ) : AgentGrade :=
  if 90 ≤ score then AgentGrade.AGENT_FIRST
  else if 75 ≤ score then AgentGrade.AGENT_COMPATIBLE
  else if 60 ≤ score then AgentGrade.HUMAN_FIRST_RISKY
  else AgentGrade.AGENT_HOSTILE

/-- models.py get_grade_description. -/
def get_grade_description (grade : AgentGrade) : String :=
  (alookup AGENT_GRADE_DESCRIPTIONS grade.value).getD ""

/-- models.py calculate_domain_score: 0-100 scale, 0 when total is 0. -/
def calculate_domain_score (passed total : Nat) : ℚ :=
  if total = 0 then 0
  else ((passed : ℚ) / (total : ℚ)) * 100

/-- models.py calculate_overall_score.  The source iterates the dict of
domain scores, looks the weight of each domain up in the static
DOMAIN_WEIGHTS table (default 0.0 for an unknown name; the weight field of
the DomainScore is never read), writes weighted_score into each entry and
sums.  Returned are the updated entries and the total. -/
def calculate_overall_score (domain_scores : List (String × DomainScore)) :
    List (String × DomainScore) × ℚ :=
  domain_scores.foldl
    (fun acc p =>
      let weight := (alookup DOMAIN_WEIGHTS p.1).getD 0
      let d := { p.2 with weighted_score := p.2.score * weight }
      (acc.1 ++ [(p.1, d)], acc.2 + p.2.score * weight))
    ([], 0)

/-- scanner.py calculate_gates: for each maturity level of GATE_CHECKS, a
required check whose name maps to False or is absent from check_results is
failing; the gate passes iff no required check fails. -/
def calculate_gates (check_results : List (String × Bool)) :
    List (String × GateStatus) :=
  GATE_CHECKS.map (fun p =>
    let failed := p.2.filter (fun n => !((alookup check_results n).getD false))
    ("level_" ++ toString p.1,
     { level := p.1
       passed := failed.isEmpty
       required_checks := p.2
       failed_checks := failed }))

/-- scanner.py CATEGORY_ORDER. -/
def CATEGORY_ORDER : List String :=
  ["discoverability", "deterministic_setup", "build_and_run",
   "test_feedback_loop", "static_guardrails", "observability",
   "ci_enforcement", "security_and_governance"]

/-- scanner.py CATEGORY_DESCRIPTIONS. -/
def CATEGORY_DESCRIPTIONS : List (String × String) :=
  [("discoverability", "Repo orientation: README presence and basic onboarding clarity"),
   ("deterministic_setup", "Reproducible dependency setup and pinning"),
   ("build_and_run", "Standard commands exist for build/test/lint/format"),
   ("test_feedback_loop", "Tests exist and are runnable with reasonable defaults"),
   ("static_guardrails", "Linters/formatters/types reduce ambiguity for agents"),
   ("observability", "Logging/metrics help agents validate behavior changes"),
   ("ci_enforcement", "CI exists and validates changes"),
   ("security_and_governance", "Baseline hygiene around secrets and contribution policy")]

/-- scanner.py PILLAR_ORDER. -/
def PILLAR_ORDER : List String :=
  ["environment_determinism", "fast_guardrails", "type_contracts",
   "verification_trust", "verification_speed", "documentation_structure",
   "inline_documentation", "contribution_contract", "agentic_security",
   "secret_hygiene", "telemetry_tracing", "structured_logging_cost",
   "eval_frameworks", "golden_datasets", "distribution_dx"]

/-- scanner.py DOMAIN_ORDER. -/
def DOMAIN_ORDER : List String :=
  ["structure", "interfaces", "determinism", "security", "testing",
   "ergonomics"]

/-- scanner.py FIX_FIRST_PRIORITIES. -/
def FIX_FIRST_PRIORITIES : List (String × String) :=
  [("discoverability", "add_or_improve_readme_setup_and_test"),
   ("deterministic_setup", "add_lockfile_or_pin_deps"),
   ("build_and_run", "add_makefile_or_task_runner_targets"),
   ("test_feedback_loop", "add_basic_test_harness"),
   ("static_guardrails", "add_lint_and_format"),
   ("ci_enforcement", "add_ci_workflow"),
   ("security_and_governance", "add_contributing_and_security_docs")]

/-- The category-score initialization loop of scan_repo (scanner.py lines
175-184): a category with a config entry whose enabled is false is skipped;
max_points comes from the config entry when present, else 2.0. -/
def init_category_scores (config : AuditConfig) : List (String × CategoryScore) :=
  CATEGORY_ORDER.foldl
    (fun acc category =>
      match alookup config.categories category with
      | some cc =>
        if !cc.enabled then acc
        else acc ++ [(category,
          { name := category
            description := (alookup CATEGORY_DESCRIPTIONS category).getD ""
            max_points := cc.max_points })]
      | none => acc ++ [(category,
          { name := category
            description := (alookup CATEGORY_DESCRIPTIONS category).getD ""
            max_points := 2 })])
    []

/-- The pillar-score initialization loop of scan_repo (scanner.py lines
187-191). -/
def init_pillar_scores : List (String × PillarScore) :=
  PILLAR_ORDER.map (fun p => (p, { name := p, max_points := 2 }))

/-- The domain-score initialization loop of scan_repo (scanner.py lines
194-203): a domain with a config entry whose enabled is false is skipped;
the weight field is filled from the static DOMAIN_WEIGHTS table. -/
def init_domain_scores (config : AuditConfig) : List (String × DomainScore) :=
  DOMAIN_ORDER.foldl
    (fun acc domain =>
      match alookup config.domains domain with
      | some dc =>
        if !dc.enabled then acc
        else acc ++ [(domain,
          { name := domain
            description := (alookup DOMAIN_DESCRIPTIONS domain).getD ""
            weight := (alookup DOMAIN_WEIGHTS domain).getD 0 })]
      | none => acc ++ [(domain,
          { name := domain
            description := (alookup DOMAIN_DESCRIPTIONS domain).getD ""
            weight := (alookup DOMAIN_WEIGHTS domain).getD 0 })])
    []

/-- The mutable state of the check loop of scan_repo. -/
structure ScanState where
  category_scores : List (String × CategoryScore)
  pillar_scores : List (String × PillarScore)
  domain_scores : List (String × DomainScore)
  check_results : List (String × Bool)
  passed_list : List ModelCheckResult
  failed_list : List ModelCheckResult
deriving Repr

/-- The domain-name resolution of scan_repo (scanner.py lines 250-254):
the explicit domain of the definition, else the pillar-to-domain mapping
for a truthy pillar name, else the category-to-domain mapping. -/
def resolve_domain_name (check_def : CheckDefinition) (pillar_name : String) : String :=
  let d := check_def.domain
  if d = "" ∧ pillar_name ≠ "" ∧ (alookup PILLAR_TO_DOMAIN pillar_name).isSome then
    (alookup PILLAR_TO_DOMAIN pillar_name).getD ""
  else if d = "" ∧ (alookup CATEGORY_TO_DOMAIN check_def.category).isSome then
    (alookup CATEGORY_TO_DOMAIN check_def.category).getD ""
  else d

/-- The category bucket update of the check loop (scanner.py lines
233-236): append the result, count it, and count it as passed when its
status is PASSED. -/
def file_category (cr : ModelCheckResult) (cs : CategoryScore) : CategoryScore :=
  { cs with
    checks := cs.checks ++ [cr]
    total_checks := cs.total_checks + 1
    passed_checks := if cr.passed then cs.passed_checks + 1 else cs.passed_checks }

/-- The pillar bucket update of the check loop (scanner.py lines 244-247):
pillars store the check name, not the result. -/
def file_pillar (check_name : String) (cr : ModelCheckResult) (ps : PillarScore) :
    PillarScore :=
  { ps with
    checks := ps.checks ++ [check_name]
    total_checks := ps.total_checks + 1
    passed_checks := if cr.passed then ps.passed_checks + 1 else ps.passed_checks }

/-- The domain bucket update of the check loop (scanner.py lines 257-269):
append the result and count it; a passed check also contributes its
nonempty evidence, a non-passed one its nonempty suggestion as a red flag. -/
def file_domain (cr : ModelCheckResult) (ds : DomainScore) : DomainScore :=
  let ds1 := { ds with
    checks := ds.checks ++ [cr]
    total_checks := ds.total_checks + 1 }
  if cr.passed then
    { ds1 with
      passed_checks := ds1.passed_checks + 1
      evidence :=
        if cr.evidence ≠ "" then ds1.evidence ++ [cr.evidence] else ds1.evidence }
  else
    { ds1 with
      red_flags :=
        if cr.suggestion ≠ "" then ds1.red_flags ++ [cr.suggestion] else ds1.red_flags }

/-- One iteration of the check loop of scan_repo (scanner.py lines
210-269) over the pair of a registered definition and the outcome of its
probe on this repository. -/
def process_check (config : AuditConfig) (st : ScanState)
    (entry : CheckDefinition × Except String BaseCheckResult) : ScanState :=
  let check_def := entry.1
  let check_config := alookup config.checks check_def.name
  let skip_check := match check_config with
    | some cc => !cc.enabled
    | none => false
  let skip_category := match alookup config.categories check_def.category with
    | some cc => !cc.enabled
    | none => false
  if skip_check || skip_category then st
  else
    let check_result0 := run_check check_def entry.2
    let check_result := match check_config with
      | some cc => { check_result0 with weight := cc.weight }
      | none => check_result0
    let check_results := st.check_results ++ [(check_def.name, check_result.passed)]
    let in_categories := (alookup st.category_scores check_def.category).isSome
    let category_scores :=
      if in_categories then
        alupdate (file_category check_result) st.category_scores check_def.category
      else st.category_scores
    let passed_list :=
      if in_categories && check_result.passed then st.passed_list ++ [check_result]
      else st.passed_list
    let failed_list :=
      if in_categories && !check_result.passed then st.failed_list ++ [check_result]
      else st.failed_list
    let pillar_name := if check_def.pillar = "" then check_def.category else check_def.pillar
    let pillar_scores :=
      if (alookup st.pillar_scores pillar_name).isSome then
        alupdate (file_pillar check_def.name check_result) st.pillar_scores pillar_name
      else st.pillar_scores
    let domain_name := resolve_domain_name check_def pillar_name
    let domain_scores :=
      if domain_name ≠ "" ∧ (alookup st.domain_scores domain_name).isSome then
        alupdate (file_domain check_result) st.domain_scores domain_name
      else st.domain_scores
    { category_scores := category_scores
      pillar_scores := pillar_scores
      domain_scores := domain_scores
      check_results := check_results
      passed_list := passed_list
      failed_list := failed_list }

/-- The category-score finalization of scan_repo (scanner.py lines
272-276): for a category with at least one check the score is the pass
ratio times max_points; otherwise the score keeps its initial 0. -/
def finalize_category (cs : CategoryScore) : CategoryScore :=
  if cs.total_checks > 0 then
    { cs with score := ((cs.passed_checks : ℚ) / (cs.total_checks : ℚ)) * cs.max_points }
  else cs

/-- The pillar-score finalization of scan_repo (scanner.py lines 279-282). -/
def finalize_pillar (ps : PillarScore) : PillarScore :=
  if ps.total_checks > 0 then
    { ps with score := ((ps.passed_checks : ℚ) / (ps.total_checks : ℚ)) * ps.max_points }
  else ps

/-- The first phase of scanner.py generate_fix_first (lines 367-379):
when the next maturity level is at most 5 and its gate did not pass,
collect the suggestions of failed checks that block that gate, skipping
empty suggestions and suggestions already collected. -/
def fix_first_gate_phase (result : RepoResult) : List String :=
  let next_level := result.maturity_level + 1
  if next_level ≤ 5 then
    match alookup result.gates ("level_" ++ toString next_level) with
    | some g =>
      if !g.passed then
        result.failed_checks.foldl
          (fun acc check =>
            if check.name ∈ g.failed_checks ∧ check.suggestion ≠ "" ∧
                check.suggestion ∉ acc then
              acc ++ [check.suggestion]
            else acc)
          []
      else []
    | none => []
  else []

/-- One step of the second phase of scanner.py generate_fix_first (the
loop body of lines 382-394): for one FIX_FIRST_PRIORITIES entry, when its
category exists and has failures, collect the suggestions of its failed
checks, skipping empty suggestions and suggestions already collected. -/
def fix_first_category_step (result : RepoResult) (acc : List String)
    (p : String × String) : List String :=
  match alookup result.category_scores p.1 with
  | some cat_score =>
    if cat_score.passed_checks < cat_score.total_checks then
      cat_score.checks.foldl
        (fun acc check =>
          if !check.passed ∧ check.suggestion ≠ "" ∧ check.suggestion ∉ acc then
            acc ++ [check.suggestion]
          else acc)
        acc
    else acc
  | none => acc

/-- The second phase of scanner.py generate_fix_first (lines 382-394):
walk the categories in FIX_FIRST_PRIORITIES order and apply the step of
each entry in that order. -/
def fix_first_category_phase (result : RepoResult) (recs : List String) : List String :=
  FIX_FIRST_PRIORITIES.foldl (fix_first_category_step result) recs

/-- scanner.py generate_fix_first: gate-blocker suggestions for the next
maturity level first, then suggestions of failed checks in
FIX_FIRST_PRIORITIES order, with membership-based deduplication while
building, truncated to the first 7. -/
def generate_fix_first (result : RepoResult) : List String :=
  (fix_first_category_phase result (fix_first_gate_phase result)).take 7

/-- The stable insertion used to model Python sorted(key=weight,
reverse=True) in generate_remediation: an element is placed before the
first element whose weight is not larger, so equal weights keep their
original relative order. -/
def insert_weight_desc (x : String × DomainScore) :
    List (String × DomainScore) → List (String × DomainScore)
  | [] => [x]
  | y :: ys =>
    if y.2.weight ≤ x.2.weight then x :: y :: ys else y :: insert_weight_desc x ys

/-- Stable sort of domain entries by descending weight. -/
def sort_weight_desc : List (String × DomainScore) → List (String × DomainScore)
  | [] => []
  | x :: xs => insert_weight_desc x (sort_weight_desc xs)

/-- scanner.py generate_remediation: domains sorted by weight descending;
domains at score 100 or more skipped; red flags appended with
membership-based deduplication. -/
def generate_remediation (result : RepoResult) : List String :=
  (sort_weight_desc result.domain_scores).foldl
    (fun acc p =>
      if 100 ≤ p.2.score then acc
      else
        p.2.red_flags.foldl
          (fun acc rf => if rf ∈ acc then acc else acc ++ [rf])
          acc)
    []

/-- scanner.py scan_repo.  The registry snapshot and the filesystem
behaviour of every probe on this repository are abstracted as the list
all_checks of definition-outcome pairs (the registry dict preserves
registration order and has unique names).  This is the state after
scan_repo has initialized the three score dicts (scanner.py lines 169-203)
and run the check loop (lines 210-269). -/
def scan_state (all_checks : List (CheckDefinition × Except String BaseCheckResult))
    (config : AuditConfig) : ScanState :=
  all_checks.foldl (process_check config)
    { category_scores := init_category_scores config
      pillar_scores := init_pillar_scores
      domain_scores := init_domain_scores config
      check_results := []
      passed_list := []
      failed_list := [] }

/-- scanner.py scan_repo, on the abstracted registry snapshot and probe
outcomes of scan_state; now is the datetime.now() value recorded in
scanned_at. -/
def scan_repo (repo_path repo_name : String)
    (all_checks : List (CheckDefinition × Except String BaseCheckResult))
    (config : AuditConfig) (now : Int) : RepoResult :=
  let st := scan_state all_checks config
  let category_scores := st.category_scores.map (fun p => (p.1, finalize_category p.2))
  let pillar_scores := st.pillar_scores.map (fun p => (p.1, finalize_pillar p.2))
  let score_total := (category_scores.map (fun p => p.2.score)).sum
  let max_score := (category_scores.map (fun p => p.2.max_points)).sum
  let level := get_level_for_score score_total
  let gates := calculate_gates st.check_results
  let score_based_level := get_maturity_for_score score_total
  let maturity_level := calculate_maturity_with_gates score_based_level gates
  let domain_scores1 := st.domain_scores.map (fun p =>
    (p.1, { p.2 with score := calculate_domain_score p.2.passed_checks p.2.total_checks }))
  let overall := calculate_overall_score domain_scores1
  let grade := get_grade_for_score overall.2
  let result0 : RepoResult :=
    { repo_path := repo_path
      repo_name := repo_name
      score_total := score_total
      max_score := max_score
      level := level
      maturity_level := maturity_level
      maturity_name := get_maturity_name maturity_level
      category_scores := category_scores
      pillar_scores := pillar_scores
      gates := gates
      failed_checks := st.failed_list
      passed_checks := st.passed_list
      fix_first := []
      scanned_at := now
      domain_scores := overall.1
      overall_score := overall.2
      grade := grade
      grade_description := get_grade_description grade
      remediation_items := [] }
  let result1 := { result0 with fix_first := generate_fix_first result0 }
  { result1 with remediation_items := generate_remediation result1 }

/-! Spec-side definitions, used only to compare the specification text with
the code (refinement comparisons). -/

/-- Modelled from the spec wording of section 3 CheckResult: the numeric
score derived from status (passed=1.0, partial=0.5, failed/unknown=0.0). -/
def spec_numeric_score : CheckStatus → ℚ
  | CheckStatus.PASSED => 1
  | CheckStatus.PARTIAL => 1/2
  | _ => 0

/-- Modelled from the spec wording of section 4.2: category score =
(sum of check numeric scores / total checks) × category max points. -/
def spec_category_score (checks : List ModelCheckResult) (max_points : ℚ) : ℚ :=
  if checks.length = 0 then 0
  else (((checks.map (fun c => spec_numeric_score c.status)).sum) / (checks.length : ℚ))
    * max_points

/-- Modelled from the spec wording of section 4.3: overall score = sum over
domains of domain.score × domain.weight (the weight field of each
DomainScore). -/
def spec_overall_score (domain_scores : List (String × DomainScore)) : ℚ :=
  (domain_scores.map (fun p => p.2.score * p.2.weight)).sum

/-- Erases the scanned_at timestamp of a RepoResult, leaving every other
field intact. -/
def scrub_scanned_at (r : RepoResult) : RepoResult :=
  { r with scanned_at := 0 }

/-! Concrete instances used by counterexamples and witnesses. -/

/-- The readme_exists definition, as registered in
checks/discoverability.py: category discoverability, pillar
distribution_dx, gate_for=[2], no explicit domain. -/
def readme_exists_def : CheckDefinition :=
  { name := "readme_exists"
    category := "discoverability"
    description := "Check if a README file exists in the repository root"
    pillar := "distribution_dx"
    gate_for := [2] }

/-- A probe outcome with partial compliance: the probe returned the base
result passed=False, partial=True, with a remediation suggestion. -/
def partial_probe_outcome : Except String BaseCheckResult :=
  Except.ok { passed := false, partialFlag := true, suggestion := "Add a README.md file." }

/-- A one-check scan of a repository on which the readme_exists probe
reports partial compliance, under the default configuration. -/
def partial_scan : RepoResult :=
  scan_repo "/repos/demo" "demo" [(readme_exists_def, partial_probe_outcome)]
    AuditConfig.default 0

/-- The ci_workflow_present definition, as registered in
checks/ci_enforcement.py: category ci_enforcement, pillar
verification_trust, gate_for=[3] (a level-3 gate check). -/
def ci_workflow_present_def : CheckDefinition :=
  { name := "ci_workflow_present"
    category := "ci_enforcement"
    description := "Check if CI workflow configuration exists"
    pillar := "verification_trust"
    gate_for := [3] }

/-- Check results in which every level-4 and level-5 gate check passed and
the level-3 gate check lockfile_exists failed. -/
def c2_check_results : List (String × Bool) :=
  [("precommit_present", true), ("fast_linter_python", true),
   ("machine_readable_coverage", true), ("test_splitting", true),
   ("python_type_hint_coverage", true), ("mypy_strictness", true),
   ("opentelemetry_present", true), ("structured_logging_present", true),
   ("eval_framework_detect", true), ("golden_dataset_present", true),
   ("promptfoo_present", true),
   ("dependency_manifest_exists", true), ("lockfile_exists", false),
   ("ci_workflow_present", true), ("linter_config_present", true),
   ("tests_directory_or_config_exists", true),
   ("readme_has_setup_section", true), ("readme_has_test_instructions", true)]

/-- A domain-score entry whose configured weight 1/2 differs from the
static default weight 15/100 of the structure domain. -/
def c3_domain_entry : String × DomainScore :=
  ("structure", { name := "structure", score := 100, weight := 1/2 })

/-! Helper lemmas about the association-list and fold combinators. -/

theorem alookup_mem {α : Type} {l : List (String × α)} {k : String} {v : α}
    (h : alookup l k = some v) : (k, v) ∈ l := by
  induction l with
  | nil => simp [alookup] at h
  | cons p rest ih =>
    obtain ⟨a, w⟩ := p
    by_cases ha : a = k
    · subst ha
      simp [alookup] at h
      subst h
      exact List.mem_cons_self _ _
    · simp [alookup, ha] at h
      exact List.mem_cons_of_mem _ (ih h)

theorem alookup_map {α β : Type} (g : String × α → β) (l : List (String × α))
    (k : String) :
    alookup (l.map (fun p => (p.1, g p))) k = (alookup l k).map (fun v => g (k, v)) := by
  induction l with
  | nil => rfl
  | cons p rest ih =>
    obtain ⟨a, w⟩ := p
    by_cases ha : a = k
    · subst ha
      simp [alookup]
    · simp [alookup, ha, ih]

theorem alookup_alupdate {α : Type} (f : α → α) (l : List (String × α))
    (k k' : String) :
    alookup (alupdate f l k) k' =
      if k' = k then (alookup l k').map f else alookup l k' := by
  induction l with
  | nil => simp [alookup, alupdate]
  | cons p rest ih =>
    obtain ⟨a, w⟩ := p
    by_cases h1 : a = k <;> by_cases h2 : a = k' <;> by_cases h3 : k' = k <;>
      simp_all [alookup, alupdate]

theorem alupdate_forall {α : Type} (P : α → Prop) (f : α → α)
    (l : List (String × α)) (k : String)
    (hl : ∀ p ∈ l, P p.2) (hf : ∀ v, P v → P (f v)) :
    ∀ p ∈ alupdate f l k, P p.2 := by
  induction l with
  | nil => simp [alupdate]
  | cons p rest ih =>
    obtain ⟨a, w⟩ := p
    by_cases h : a = k
    · subst h
      simp only [alupdate, if_pos rfl]
      intro q hq
      rcases List.mem_cons.mp hq with h' | h'
      · subst h'
        exact hf w (hl (a, w) (List.mem_cons_self _ _))
      · exact hl q (List.mem_cons_of_mem _ h')
    · simp only [alupdate, if_neg h]
      intro q hq
      rcases List.mem_cons.mp hq with h' | h'
      · subst h'
        exact hl (a, w) (List.mem_cons_self _ _)
      · exact ih (fun p hp => hl p (List.mem_cons_of_mem _ hp)) q h'

theorem foldl_preserve {α β : Type} (P : β → Prop) (step : β → α → β)
    (hstep : ∀ b a, P b → P (step b a)) :
    ∀ (l : List α) (b : β), P b → P (l.foldl step b) := by
  intro l
  induction l with
  | nil => intro b h; simpa using h
  | cons x rest ih => intro b h; exact ih (step b x) (hstep b x h)

theorem foldl_extends {α : Type} (step : List String → α → List String)
    (hstep : ∀ acc x, ∃ t, step acc x = acc ++ t) :
    ∀ (l : List α) (acc : List String), ∃ t, l.foldl step acc = acc ++ t := by
  intro l
  induction l with
  | nil => intro acc; exact ⟨[], by simp⟩
  | cons x rest ih =>
    intro acc
    obtain ⟨t1, ht1⟩ := hstep acc x
    obtain ⟨t2, ht2⟩ := ih (step acc x)
    refine ⟨t1 ++ t2, ?_⟩
    rw [← List.append_assoc, ← ht1]
    simpa [ht1] using ht2

theorem foldl_guard_mem {α : Type} (val : α → String) (Q : α → Prop)
    (step : List String → α → List String)
    (hstep : ∀ acc x, step acc x = acc ∨ (Q x ∧ step acc x = acc ++ [val x])) :
    ∀ (l : List α) (acc : List String) (s : String), s ∈ l.foldl step acc →
      s ∈ acc ∨ ∃ x ∈ l, Q x ∧ s = val x := by
  intro l
  induction l with
  | nil => intro acc s hs; exact Or.inl (by simpa using hs)
  | cons x rest ih =>
    intro acc s hs
    rcases ih (step acc x) s hs with h | ⟨y, hy, hQ, hval⟩
    · rcases hstep acc x with h' | ⟨hQ, h'⟩
      · rw [h'] at h
        exact Or.inl h
      · rw [h'] at h
        rcases List.mem_append.mp h with h'' | h''
        · exact Or.inl h''
        · exact Or.inr ⟨x, List.mem_cons_self _ _, hQ, by simpa using h''⟩
    · exact Or.inr ⟨y, List.mem_cons_of_mem _ hy, hQ, hval⟩

theorem level_key_2 : ("level_" ++ toString (2 : Nat)) = "level_2" := rfl

theorem level_key_3 : ("level_" ++ toString (3 : Nat)) = "level_3" := rfl

theorem level_key_4 : ("level_" ++ toString (4 : Nat)) = "level_4" := rfl

theorem level_key_5 : ("level_" ++ toString (5 : Nat)) = "level_5" := rfl

/-! Lemmas about the downward gate walk and gate evaluation. -/

theorem gate_walk_le (gates : List (String × GateStatus)) :
    ∀ (n acc B : Nat), acc ≤ B → n ≤ B + 1 → gate_walk gates acc n ≤ B := by
  intro n
  induction n with
  | zero => intro acc B h _; simpa [gate_walk] using h
  | succ l ih =>
    intro acc B h hn
    by_cases h3 : l + 1 < 3
    · simp only [gate_walk, if_pos h3]
      exact ih acc B h (by omega)
    · simp only [gate_walk, if_neg h3]
      by_cases hf : gate_failed_at gates (l + 1) = true
      · rw [if_pos hf]
        exact ih l B (by omega) (by omega)
      · rw [if_neg hf]
        exact ih acc B h (by omega)

theorem gate_walk_cap (gates : List (String × GateStatus)) (L : Nat)
    (hL : 3 ≤ L) (hfail : gate_failed_at gates L = true) :
    ∀ (n : Nat), ∀ (acc : Nat), L ≤ n → gate_walk gates acc n ≤ L - 1 := by
  intro n
  induction n with
  | zero => intro acc h; omega
  | succ l ih =>
    intro acc hLn
    have h3 : ¬(l + 1 < 3) := by omega
    simp only [gate_walk, if_neg h3]
    by_cases hEq : L = l + 1
    · have hf : gate_failed_at gates (l + 1) = true := hEq ▸ hfail
      rw [if_pos hf]
      exact gate_walk_le gates l l (L - 1) (by omega) (by omega)
    · have hLl : L ≤ l := by omega
      by_cases hf : gate_failed_at gates (l + 1) = true
      · rw [if_pos hf]; exact ih l hLl
      · rw [if_neg hf]; exact ih acc hLl

theorem maturity_lt_of_gate_failed (s L : Nat) (gates : List (String × GateStatus))
    (hL : 3 ≤ L) (hfail : gate_failed_at gates L = true) :
    calculate_maturity_with_gates s gates < L := by
  unfold calculate_maturity_with_gates
  by_cases h : L ≤ s
  · have := gate_walk_cap gates L hL hfail s s h
    omega
  · have := gate_walk_le gates s s s (le_refl s) (by omega)
    omega

theorem gate_failed_of_required_false (cr : List (String × Bool)) (L : Nat)
    (req : List String) (n : String) (hmem : (L, req) ∈ GATE_CHECKS) (hn : n ∈ req)
    (hres : (alookup cr n).getD false = false) :
    gate_failed_at (calculate_gates cr) L = true := by
  have hfilter : n ∈ req.filter (fun m => !((alookup cr m).getD false)) :=
    List.mem_filter.mpr ⟨hn, by simp [hres]⟩
  have hne : req.filter (fun m => !((alookup cr m).getD false)) ≠ [] :=
    List.ne_nil_of_mem hfilter
  simp only [GATE_CHECKS, List.mem_cons, List.not_mem_nil, or_false,
    Prod.mk.injEq] at hmem
  rcases hmem with ⟨hL', hreq⟩ | ⟨hL', hreq⟩ | ⟨hL', hreq⟩ <;>
    subst hL' <;> subst hreq <;>
    simp_all [gate_failed_at, calculate_gates, GATE_CHECKS, alookup,
      level_key_3, level_key_4, level_key_5, List.isEmpty_iff]

/-! Closed form of the weighted overall score. -/

theorem calculate_overall_score_go (ds : List (String × DomainScore)) :
    ∀ (acc : List (String × DomainScore) × ℚ),
      ds.foldl
        (fun acc p =>
          let weight := (alookup DOMAIN_WEIGHTS p.1).getD 0
          let d := { p.2 with weighted_score := p.2.score * weight }
          (acc.1 ++ [(p.1, d)], acc.2 + p.2.score * weight)) acc =
      (acc.1 ++ ds.map (fun p => (p.1,
         { p.2 with weighted_score := p.2.score * (alookup DOMAIN_WEIGHTS p.1).getD 0 })),
       acc.2 + (ds.map (fun p => p.2.score * (alookup DOMAIN_WEIGHTS p.1).getD 0)).sum) := by
  induction ds with
  | nil => intro acc; simp
  | cons p rest ih =>
    intro acc
    simp only [List.foldl_cons, ih, List.map_cons, List.sum_cons]
    simp [add_assoc]

theorem calculate_overall_score_eq (ds : List (String × DomainScore)) :
    calculate_overall_score ds =
      (ds.map (fun p => (p.1,
         { p.2 with weighted_score := p.2.score * (alookup DOMAIN_WEIGHTS p.1).getD 0 })),
       (ds.map (fun p => p.2.score * (alookup DOMAIN_WEIGHTS p.1).getD 0)).sum) := by
  unfold calculate_overall_score
  rw [calculate_overall_score_go]
  simp

/-! Projections of scan_repo (all definitional). -/

theorem scan_repo_category_scores (rp rn : String)
    (all : List (CheckDefinition × Except String BaseCheckResult))
    (cfg : AuditConfig) (now : Int) :
    (scan_repo rp rn all cfg now).category_scores =
      (scan_state all cfg).category_scores.map (fun p => (p.1, finalize_category p.2)) :=
  rfl

theorem scan_repo_domain_scores (rp rn : String)
    (all : List (CheckDefinition × Except String BaseCheckResult))
    (cfg : AuditConfig) (now : Int) :
    (scan_repo rp rn all cfg now).domain_scores =
      (calculate_overall_score ((scan_state all cfg).domain_scores.map (fun p =>
        (p.1, { p.2 with
          score := calculate_domain_score p.2.passed_checks p.2.total_checks })))).1 :=
  rfl

theorem scan_repo_gates (rp rn : String)
    (all : List (CheckDefinition × Except String BaseCheckResult))
    (cfg : AuditConfig) (now : Int) :
    (scan_repo rp rn all cfg now).gates =
      calculate_gates (scan_state all cfg).check_results :=
  rfl

theorem scan_repo_scanned_at (rp rn : String)
    (all : List (CheckDefinition × Except String BaseCheckResult))
    (cfg : AuditConfig) (now : Int) :
    (scan_repo rp rn all cfg now).scanned_at = now :=
  rfl

/-! Counting invariants of the check loop: in every category and domain
bucket, passed_checks counts exactly the filed results whose status is
PASSED, total_checks counts all filed results, and (for categories) the
score field is untouched until finalization. -/

theorem init_category_scores_inv (cfg : AuditConfig) :
    ∀ p ∈ init_category_scores cfg,
      p.2.passed_checks = (p.2.checks.filter (fun r => r.passed)).length ∧
      p.2.total_checks = p.2.checks.length ∧ p.2.score = 0 := by
  unfold init_category_scores
  refine foldl_preserve
    (fun (l : List (String × CategoryScore)) => ∀ p ∈ l,
      p.2.passed_checks = (p.2.checks.filter (fun r => r.passed)).length ∧
      p.2.total_checks = p.2.checks.length ∧ p.2.score = 0) _ ?_ _ _ (by simp)
  intro b a hb
  dsimp only
  cases halook : alookup cfg.categories a with
  | none =>
    intro p hp
    rcases List.mem_append.mp hp with h | h
    · exact hb p h
    · simp only [List.mem_singleton] at h
      subst h
      simp
  | some cc =>
    by_cases he : !cc.enabled
    · simpa [he] using hb
    · simp only [he, if_false]
      intro p hp
      rcases List.mem_append.mp hp with h | h
      · exact hb p h
      · simp only [List.mem_singleton] at h
        subst h
        simp

theorem init_domain_scores_inv (cfg : AuditConfig) :
    ∀ p ∈ init_domain_scores cfg,
      p.2.passed_checks = (p.2.checks.filter (fun r => r.passed)).length ∧
      p.2.total_checks = p.2.checks.length := by
  unfold init_domain_scores
  refine foldl_preserve
    (fun (l : List (String × DomainScore)) => ∀ p ∈ l,
      p.2.passed_checks = (p.2.checks.filter (fun r => r.passed)).length ∧
      p.2.total_checks = p.2.checks.length) _ ?_ _ _ (by simp)
  intro b a hb
  dsimp only
  cases halook : alookup cfg.domains a with
  | none =>
    intro p hp
    rcases List.mem_append.mp hp with h | h
    · exact hb p h
    · simp only [List.mem_singleton] at h
      subst h
      simp
  | some dc =>
    by_cases he : !dc.enabled
    · simpa [he] using hb
    · simp only [he, if_false]
      intro p hp
      rcases List.mem_append.mp hp with h | h
      · exact hb p h
      · simp only [List.mem_singleton] at h
        subst h
        simp

theorem file_category_inv (cr : ModelCheckResult) (v : CategoryScore)
    (h1 : v.passed_checks = (v.checks.filter (fun r => r.passed)).length)
    (h2 : v.total_checks = v.checks.length) (h3 : v.score = 0) :
    (file_category cr v).passed_checks =
      ((file_category cr v).checks.filter (fun r => r.passed)).length ∧
    (file_category cr v).total_checks = (file_category cr v).checks.length ∧
    (file_category cr v).score = 0 := by
  unfold file_category
  refine ⟨?_, ?_, ?_⟩ <;> dsimp only
  · by_cases hp : cr.passed = true
    · simp [List.filter_append, hp, h1]
    · simp [List.filter_append, hp, h1]
  · simp [h2]
  · exact h3

theorem file_domain_inv (cr : ModelCheckResult) (v : DomainScore)
    (h1 : v.passed_checks = (v.checks.filter (fun r => r.passed)).length)
    (h2 : v.total_checks = v.checks.length) :
    (file_domain cr v).passed_checks =
      ((file_domain cr v).checks.filter (fun r => r.passed)).length ∧
    (file_domain cr v).total_checks = (file_domain cr v).checks.length := by
  unfold file_domain
  by_cases hp : cr.passed = true
  · simp only [hp, if_true]
    refine ⟨?_, ?_⟩ <;> dsimp only
    · simp [List.filter_append, hp, h1]
    · simp [h2]
  · simp only [hp, if_false]
    refine ⟨?_, ?_⟩ <;> dsimp only
    · simp [List.filter_append, hp, h1]
    · simp [h2]

theorem process_check_cat_inv (cfg : AuditConfig) (st : ScanState)
    (e : CheckDefinition × Except String BaseCheckResult)
    (h : ∀ p ∈ st.category_scores,
      p.2.passed_checks = (p.2.checks.filter (fun r => r.passed)).length ∧
      p.2.total_checks = p.2.checks.length ∧ p.2.score = 0) :
    ∀ p ∈ (process_check cfg st e).category_scores,
      p.2.passed_checks = (p.2.checks.filter (fun r => r.passed)).length ∧
      p.2.total_checks = p.2.checks.length ∧ p.2.score = 0 := by
  unfold process_check
  dsimp only
  split
  · exact h
  · dsimp only
    by_cases hin : (alookup st.category_scores e.1.category).isSome = true
    · simp only [hin, if_true]
      refine alupdate_forall
        (fun (c : CategoryScore) =>
          c.passed_checks = (c.checks.filter (fun r => r.passed)).length ∧
          c.total_checks = c.checks.length ∧ c.score = 0) _ _ _ h ?_
      intro v hv
      obtain ⟨h1, h2, h3⟩ := hv
      exact file_category_inv _ v h1 h2 h3
    · simp only [hin, if_false]
      exact h

theorem process_check_dom_inv (cfg : AuditConfig) (st : ScanState)
    (e : CheckDefinition × Except String BaseCheckResult)
    (h : ∀ p ∈ st.domain_scores,
      p.2.passed_checks = (p.2.checks.filter (fun r => r.passed)).length ∧
      p.2.total_checks = p.2.checks.length) :
    ∀ p ∈ (process_check cfg st e).domain_scores,
      p.2.passed_checks = (p.2.checks.filter (fun r => r.passed)).length ∧
      p.2.total_checks = p.2.checks.length := by
  unfold process_check
  dsimp only
  split
  · exact h
  · dsimp only
    by_cases hdom : (resolve_domain_name e.1
        (if e.1.pillar = "" then e.1.category else e.1.pillar) ≠ "" ∧
        (alookup st.domain_scores (resolve_domain_name e.1
          (if e.1.pillar = "" then e.1.category else e.1.pillar))).isSome = true)
    · rw [if_pos hdom]
      refine alupdate_forall
        (fun (d : DomainScore) =>
          d.passed_checks = (d.checks.filter (fun r => r.passed)).length ∧
          d.total_checks = d.checks.length) _ _ _ h ?_
      intro v hv
      obtain ⟨h1, h2⟩ := hv
      exact file_domain_inv _ v h1 h2
    · rw [if_neg hdom]
      exact h

theorem scan_state_cat_inv
    (all : List (CheckDefinition × Except String BaseCheckResult))
    (cfg : AuditConfig) :
    ∀ p ∈ (scan_state all cfg).category_scores,
      p.2.passed_checks = (p.2.checks.filter (fun r => r.passed)).length ∧
      p.2.total_checks = p.2.checks.length ∧ p.2.score = 0 := by
  unfold scan_state
  refine foldl_preserve
    (fun (st : ScanState) => ∀ p ∈ st.category_scores,
      p.2.passed_checks = (p.2.checks.filter (fun r => r.passed)).length ∧
      p.2.total_checks = p.2.checks.length ∧ p.2.score = 0)
    (process_check cfg) ?_ all _ ?_
  · intro st e hst
    exact process_check_cat_inv cfg st e hst
  · exact init_category_scores_inv cfg

theorem scan_state_dom_inv
    (all : List (CheckDefinition × Except String BaseCheckResult))
    (cfg : AuditConfig) :
    ∀ p ∈ (scan_state all cfg).domain_scores,
      p.2.passed_checks = (p.2.checks.filter (fun r => r.passed)).length ∧
      p.2.total_checks = p.2.checks.length := by
  unfold scan_state
  refine foldl_preserve
    (fun (st : ScanState) => ∀ p ∈ st.domain_scores,
      p.2.passed_checks = (p.2.checks.filter (fun r => r.passed)).length ∧
      p.2.total_checks = p.2.checks.length)
    (process_check cfg) ?_ all _ ?_
  · intro st e hst
    exact process_check_dom_inv cfg st e hst
  · exact init_domain_scores_inv cfg

/-- Helper: a gate whose required checks all map to True in the results is
not failing. -/
theorem gate_not_failed_of_required_true (cr : List (String × Bool)) (L : Nat)
    (req : List String) (hmem : (L, req) ∈ GATE_CHECKS)
    (hall : ∀ n ∈ req, (alookup cr n).getD false = true) :
    gate_failed_at (calculate_gates cr) L = false := by
  have hfilter : req.filter (fun m => !((alookup cr m).getD false)) = [] :=
    List.filter_eq_nil_iff.mpr (fun n hn => by simp [hall n hn])
  simp only [GATE_CHECKS, List.mem_cons, List.not_mem_nil, or_false,
    Prod.mk.injEq] at hmem
  rcases hmem with ⟨hL', hreq⟩ | ⟨hL', hreq⟩ | ⟨hL', hreq⟩ <;>
    subst hL' <;> subst hreq <;>
    simp_all [gate_failed_at, calculate_gates, GATE_CHECKS, alookup,
      level_key_3, level_key_4, level_key_5]

/-- C2: when the score-implied maturity level is 5, every level-4 and
level-5 gate check passes, and some level-3 gate check fails, the achieved
maturity level computed by calculate_maturity_with_gates over
calculate_gates is exactly 2: the downward walk caps at the lowest failing
gate level and levels cannot be skipped. -/
theorem c2_gate_capping_no_skip (cr : List (String × Bool))
    (h4 : ∀ p ∈ GATE_CHECKS, p.1 = 4 → ∀ n ∈ p.2, (alookup cr n).getD false = true)
    (h5 : ∀ p ∈ GATE_CHECKS, p.1 = 5 → ∀ n ∈ p.2, (alookup cr n).getD false = true)
    (h3 : ∃ p ∈ GATE_CHECKS, p.1 = 3 ∧ ∃ n ∈ p.2, (alookup cr n).getD false = false) :
    calculate_maturity_with_gates 5 (calculate_gates cr) = 2 := by
  obtain ⟨q, hq, hq3, n, hn, hf⟩ := h3
  have hmem3 : (3, q.2) ∈ GATE_CHECKS := by
    have : q = (3, q.2) := by
      obtain ⟨a, b⟩ := q
      simp_all
    exact this ▸ hq
  have hg3 : gate_failed_at (calculate_gates cr) 3 = true :=
    gate_failed_of_required_false cr 3 q.2 n hmem3 hn hf
  have hg4 : gate_failed_at (calculate_gates cr) 4 = false :=
    gate_not_failed_of_required_true cr 4
      ["precommit_present", "fast_linter_python", "machine_readable_coverage",
       "test_splitting", "python_type_hint_coverage", "mypy_strictness"]
      (by decide) (fun m hm' => h4
        (4, ["precommit_present", "fast_linter_python", "machine_readable_coverage",
             "test_splitting", "python_type_hint_coverage", "mypy_strictness"])
        (by decide) rfl m hm')
  have hg5 : gate_failed_at (calculate_gates cr) 5 = false :=
    gate_not_failed_of_required_true cr 5
      ["opentelemetry_present", "structured_logging_present",
       "eval_framework_detect", "golden_dataset_present", "promptfoo_present"]
      (by decide) (fun m hm' => h5
        (5, ["opentelemetry_present", "structured_logging_present",
             "eval_framework_detect", "golden_dataset_present", "promptfoo_present"])
        (by decide) rfl m hm')
  simp [calculate_maturity_with_gates, gate_walk, hg3, hg4, hg5]

/-- Witness for C2 at the concrete results c2_check_results: all level-4
and level-5 gate names map to True, lockfile_exists (a level-3 gate) maps
to False, and the achieved maturity level is 2. -/
theorem c2_gate_capping_no_skip_witness :
    (∀ p ∈ GATE_CHECKS, p.1 = 4 → ∀ n ∈ p.2,
      (alookup c2_check_results n).getD false = true) ∧
    (∀ p ∈ GATE_CHECKS, p.1 = 5 → ∀ n ∈ p.2,
      (alookup c2_check_results n).getD false = true) ∧
    calculate_maturity_with_gates 5 (calculate_gates c2_check_results) = 2 :=
  ⟨by decide, by decide,
   c2_gate_capping_no_skip c2_check_results (by decide) (by decide)
     ⟨(3, ["dependency_manifest_exists", "lockfile_exists", "ci_workflow_present",
        "linter_config_present", "tests_directory_or_config_exists",
        "readme_has_setup_section", "readme_has_test_instructions"]),
      by decide, rfl, "lockfile_exists", by decide, by decide⟩⟩

/-- C3 counterexample: a domain-score entry for the structure domain with
configured weight 1/2 and score 100.  The spec formula
sum of score times the weight field gives 50, but calculate_overall_score
ignores the weight field and uses the static DOMAIN_WEIGHTS table,
giving 100 times 15/100 = 15. -/
theorem c3_counterexample :
    spec_overall_score [c3_domain_entry] = 50 ∧
    (calculate_overall_score [c3_domain_entry]).2 = 15 ∧
    (calculate_overall_score [c3_domain_entry]).2 ≠ spec_overall_score [c3_domain_entry] := by
  refine ⟨?_, ?_, ?_⟩ <;>
    norm_num [spec_overall_score, c3_domain_entry, calculate_overall_score,
      alookup, DOMAIN_WEIGHTS]

/-- C3 (amended): calculate_overall_score always multiplies each domain
score by the static DOMAIN_WEIGHTS entry of its name (0 for a name not in
the table), regardless of the weight field of the DomainScore; and the
static default weights sum to exactly 1. -/
theorem c3_overall_score_static_weights :
    (∀ ds : List (String × DomainScore),
      (calculate_overall_score ds).2 =
        (ds.map (fun p => p.2.score * (alookup DOMAIN_WEIGHTS p.1).getD 0)).sum) ∧
    (DOMAIN_WEIGHTS.map (fun p => p.2)).sum = 1 := by
  constructor
  · intro ds
    rw [calculate_overall_score_eq]
  · norm_num [DOMAIN_WEIGHTS]

/-- C4: grade assignment is a total threshold classification of the
overall score with closed-open boundaries, and the boundary points 90,
89.999, 60 and 59.999 land in the stated grades. -/
theorem c4_grade_thresholds :
    (∀ s : ℚ,
      (90 ≤ s → get_grade_for_score s = AgentGrade.AGENT_FIRST) ∧
      (75 ≤ s → s < 90 → get_grade_for_score s = AgentGrade.AGENT_COMPATIBLE) ∧
      (60 ≤ s → s < 75 → get_grade_for_score s = AgentGrade.HUMAN_FIRST_RISKY) ∧
      (s < 60 → get_grade_for_score s = AgentGrade.AGENT_HOSTILE)) ∧
    get_grade_for_score 90 = AgentGrade.AGENT_FIRST ∧
    get_grade_for_score (89999/1000) = AgentGrade.AGENT_COMPATIBLE ∧
    get_grade_for_score 60 = AgentGrade.HUMAN_FIRST_RISKY ∧
    get_grade_for_score (59999/1000) = AgentGrade.AGENT_HOSTILE := by
  refine ⟨?_, ?_, ?_, ?_, ?_⟩
  · intro s
    refine ⟨?_, ?_, ?_, ?_⟩ <;> intro h <;>
      first
      | (unfold get_grade_for_score; split_ifs <;> first | rfl | linarith)
      | (intro h2; unfold get_grade_for_score; split_ifs <;> first | rfl | linarith)
  · norm_num [get_grade_for_score]
  · norm_num [get_grade_for_score]
  · norm_num [get_grade_for_score]
  · norm_num [get_grade_for_score]

/-- Witness for C4 at the boundary score 90. -/
theorem c4_grade_thresholds_witness :
    (90 : ℚ) ≤ 90 ∧ get_grade_for_score 90 = AgentGrade.AGENT_FIRST :=
  ⟨by norm_num, (c4_grade_thresholds.1 90).1 (by norm_num)⟩

/-- C6: run_check at the failing input ci_workflow_present_def (a gate
check for level 3, gate_for = [3]) with a probe that raises "boom".  The
runner returns (never raises) a result with status UNKNOWN, evidence
describing the error, and the original weight and pillar of the
definition; but the gate metadata is NOT attached: the gate_for list
passed by run_check is silently dropped by the pydantic model (which has
no such field), so the only gate field of the result, gate_level, is
none. -/
theorem c6_run_check_error_boundary :
    (run_check ci_workflow_present_def (Except.error "boom")).status =
      CheckStatus.UNKNOWN ∧
    (run_check ci_workflow_present_def (Except.error "boom")).evidence =
      "Check failed with error: boom" ∧
    (run_check ci_workflow_present_def (Except.error "boom")).weight =
      ci_workflow_present_def.weight ∧
    (run_check ci_workflow_present_def (Except.error "boom")).pillar =
      ci_workflow_present_def.pillar ∧
    ci_workflow_present_def.gate_for = [3] ∧
    (run_check ci_workflow_present_def (Except.error "boom")).gate_level = none := by
  refine ⟨rfl, ?_, rfl, rfl, rfl, rfl⟩
  decide

/-- C7 counterexample: with an empty results map (no check was ever run),
calculate_gates silently reports the level-3 gate as failing with every
required check listed as failed, rather than flagging the never-run names
as an error. -/
theorem c7_counterexample :
    (alookup (calculate_gates []) "level_3").map (fun g => (g.passed, g.failed_checks)) =
      some (false,
        ["dependency_manifest_exists", "lockfile_exists", "ci_workflow_present",
         "linter_config_present", "tests_directory_or_config_exists",
         "readme_has_setup_section", "readme_has_test_instructions"]) := by
  decide

/-- C7 (amended): every check name referenced by GATE_CHECKS is a name of
the check registry (a fact verified in the repository by a dedicated test,
not by a startup-time check), and calculate_gates treats any gate name
absent from the results map (never run) as a failing gate. -/
theorem c7_gate_names_registered :
    (∀ p ∈ GATE_CHECKS, ∀ n ∈ p.2, n ∈ ALL_REGISTERED_CHECK_NAMES) ∧
    (∀ (cr : List (String × Bool)), ∀ p ∈ GATE_CHECKS, ∀ n ∈ p.2,
      alookup cr n = none → gate_failed_at (calculate_gates cr) p.1 = true) := by
  constructor
  · decide
  · intro cr p hmem n hn hnone
    exact gate_failed_of_required_false cr p.1 p.2 n hmem hn (by simp [hnone])

/-- Witness for C7: lockfile_exists is a level-3 gate name, and with the
empty results map the level-3 gate fails. -/
theorem c7_gate_names_registered_witness :
    ((3, ["dependency_manifest_exists", "lockfile_exists", "ci_workflow_present",
          "linter_config_present", "tests_directory_or_config_exists",
          "readme_has_setup_section", "readme_has_test_instructions"]) ∈ GATE_CHECKS ∧
     "lockfile_exists" ∈ ["dependency_manifest_exists", "lockfile_exists",
          "ci_workflow_present", "linter_config_present",
          "tests_directory_or_config_exists", "readme_has_setup_section",
          "readme_has_test_instructions"]) ∧
    gate_failed_at (calculate_gates []) 3 = true :=
  ⟨⟨by decide, by decide⟩,
   c7_gate_names_registered.2 []
     (3, ["dependency_manifest_exists", "lockfile_exists", "ci_workflow_present",
          "linter_config_present", "tests_directory_or_config_exists",
          "readme_has_setup_section", "readme_has_test_instructions"])
     (by decide) "lockfile_exists" (by decide) rfl⟩

/-- C9 counterexample: scanning the same repository twice with identical
probe outcomes but at two different wall-clock instants yields RepoResults
that are NOT identical: the scanned_at fields differ. -/
theorem c9_counterexample :
    scan_repo "/repos/demo" "demo" [] AuditConfig.default 0 ≠
      scan_repo "/repos/demo" "demo" [] AuditConfig.default 1 := by
  intro h
  have h2 : (0 : Int) = 1 := by
    have h3 := congrArg RepoResult.scanned_at h
    rw [scan_repo_scanned_at, scan_repo_scanned_at] at h3
    exact h3
  exact absurd h2 (by norm_num)

/-- C9 (amended): two scans of the same repository with the same
configuration and the same probe outcomes agree on every field except
scanned_at: scrubbing the timestamp makes the two results equal. -/
theorem c9_scan_deterministic_up_to_timestamp (rp rn : String)
    (all : List (CheckDefinition × Except String BaseCheckResult))
    (cfg : AuditConfig) (n1 n2 : Int) :
    scrub_scanned_at (scan_repo rp rn all cfg n1) =
      scrub_scanned_at (scan_repo rp rn all cfg n2) :=
  rfl

/-- C5: for every category-score finalization and domain-score
computation, the score lies between 0 and the maximum (max_points for a
category, 100 for a domain), and a bucket with zero total checks keeps
score 0; the zero-total case is an explicit guard, not a division (the
Python code raises no ZeroDivisionError because it only divides when
total_checks is positive). -/
theorem c5_score_bounds (cs : CategoryScore) (p t : Nat)
    (hcs : cs.passed_checks ≤ cs.total_checks) (hmp : 0 ≤ cs.max_points)
    (hs0 : cs.score = 0) (hpt : p ≤ t) :
    (0 ≤ (finalize_category cs).score ∧
     (finalize_category cs).score ≤ cs.max_points ∧
     (cs.total_checks = 0 → (finalize_category cs).score = 0)) ∧
    (0 ≤ calculate_domain_score p t ∧ calculate_domain_score p t ≤ 100 ∧
     (t = 0 → calculate_domain_score p t = 0)) := by
  constructor
  · unfold finalize_category
    by_cases ht : cs.total_checks > 0
    · rw [if_pos ht]
      have htq : (0 : ℚ) < (cs.total_checks : ℚ) := by exact_mod_cast ht
      have hratio0 : (0 : ℚ) ≤ (cs.passed_checks : ℚ) / (cs.total_checks : ℚ) :=
        div_nonneg (by positivity) (le_of_lt htq)
      have hratio1 : (cs.passed_checks : ℚ) / (cs.total_checks : ℚ) ≤ 1 :=
        (div_le_one htq).mpr (by exact_mod_cast hcs)
      refine ⟨?_, ?_, ?_⟩
      · exact mul_nonneg hratio0 hmp
      · calc (cs.passed_checks : ℚ) / (cs.total_checks : ℚ) * cs.max_points
            ≤ 1 * cs.max_points := by
              exact mul_le_mul_of_nonneg_right hratio1 hmp
          _ = cs.max_points := one_mul _
      · intro h0
        omega
    · rw [if_neg ht]
      exact ⟨by rw [hs0], by rw [hs0]; exact hmp, fun _ => hs0⟩
  · unfold calculate_domain_score
    by_cases ht : t = 0
    · rw [if_pos ht]
      norm_num
    · rw [if_neg ht]
      have htq : (0 : ℚ) < (t : ℚ) := by
        have : 0 < t := Nat.pos_of_ne_zero ht
        exact_mod_cast this
      have hratio0 : (0 : ℚ) ≤ (p : ℚ) / (t : ℚ) :=
        div_nonneg (by positivity) (le_of_lt htq)
      have hratio1 : (p : ℚ) / (t : ℚ) ≤ 1 :=
        (div_le_one htq).mpr (by exact_mod_cast hpt)
      refine ⟨by positivity, ?_, fun h0 => absurd h0 ht⟩
      calc (p : ℚ) / (t : ℚ) * 100 ≤ 1 * 100 := by
            exact mul_le_mul_of_nonneg_right hratio1 (by norm_num)
        _ = 100 := one_mul _

/-- Witness for C5 at a category with 1 of 2 checks passed and max 2, and
a domain with 1 of 2 checks passed. -/
theorem c5_score_bounds_witness :
    (1 : Nat) ≤ 2 ∧ (0 : ℚ) ≤ 2 ∧
    (0 ≤ calculate_domain_score 1 2 ∧ calculate_domain_score 1 2 ≤ 100 ∧
     ((2 : Nat) = 0 → calculate_domain_score 1 2 = 0)) :=
  ⟨by decide, by norm_num,
   (c5_score_bounds
     { name := "discoverability", passed_checks := 1, total_checks := 2 } 1 2
     (by decide) (by norm_num) rfl (by decide)).2⟩

/-- C10: a check whose probe raised gets status UNKNOWN and does not count
as passed; a non-passed (e.g. UNKNOWN) result leaves the passed_checks
counter of every category, pillar and domain bucket unchanged; a gate name
whose result is False makes its gate fail; and a failing gate at level L
(3 or above) caps the achieved maturity level strictly below L. -/
theorem c10_unknown_counts_as_failure :
    (∀ (d : CheckDefinition) (msg : String),
      (run_check d (Except.error msg)).status = CheckStatus.UNKNOWN ∧
      (run_check d (Except.error msg)).passed = false) ∧
    (∀ (cfg : AuditConfig) (st : ScanState)
       (e : CheckDefinition × Except String BaseCheckResult) (k : String),
      (run_check e.1 e.2).passed = false →
        ((alookup (process_check cfg st e).category_scores k).map
            (fun c => c.passed_checks) =
          (alookup st.category_scores k).map (fun c => c.passed_checks) ∧
         (alookup (process_check cfg st e).pillar_scores k).map
            (fun c => c.passed_checks) =
          (alookup st.pillar_scores k).map (fun c => c.passed_checks) ∧
         (alookup (process_check cfg st e).domain_scores k).map
            (fun c => c.passed_checks) =
          (alookup st.domain_scores k).map (fun c => c.passed_checks))) ∧
    (∀ (cr : List (String × Bool)), ∀ p ∈ GATE_CHECKS, ∀ n ∈ p.2,
      alookup cr n = some false →
      gate_failed_at (calculate_gates cr) p.1 = true) ∧
    (∀ (s L : Nat) (gates : List (String × GateStatus)), 3 ≤ L →
      gate_failed_at gates L = true →
      calculate_maturity_with_gates s gates < L) := by
  refine ⟨?_, ?_, ?_, ?_⟩
  · intro d msg
    exact ⟨rfl, rfl⟩
  · intro cfg st e k h
    have hcr : (match alookup cfg.checks e.1.name with
        | some cc => { run_check e.1 e.2 with weight := cc.weight }
        | none => run_check e.1 e.2).passed = false := by
      cases halk : alookup cfg.checks e.1.name <;>
        simp_all [ModelCheckResult.passed]
    unfold process_check
    dsimp only
    split
    · exact ⟨rfl, rfl, rfl⟩
    · refine ⟨?_, ?_, ?_⟩ <;> dsimp only
      · by_cases hin : (alookup st.category_scores e.1.category).isSome = true
        · simp only [hin, if_true, alookup_alupdate]
          by_cases hk : k = e.1.category
          · rw [if_pos hk]
            cases halk : alookup st.category_scores k <;>
              simp [file_category, hcr]
          · rw [if_neg hk]
        · simp [hin]
      · by_cases hin : (alookup st.pillar_scores
            (if e.1.pillar = "" then e.1.category else e.1.pillar)).isSome = true
        · simp only [hin, if_true, alookup_alupdate]
          by_cases hk : k = (if e.1.pillar = "" then e.1.category else e.1.pillar)
          · rw [if_pos hk]
            cases halk : alookup st.pillar_scores k <;>
              simp [file_pillar, hcr]
          · rw [if_neg hk]
        · simp [hin]
      · by_cases hdom : (resolve_domain_name e.1
            (if e.1.pillar = "" then e.1.category else e.1.pillar) ≠ "" ∧
            (alookup st.domain_scores (resolve_domain_name e.1
              (if e.1.pillar = "" then e.1.category else e.1.pillar))).isSome = true)
        · rw [if_pos hdom]
          rw [alookup_alupdate]
          by_cases hk : k = resolve_domain_name e.1
              (if e.1.pillar = "" then e.1.category else e.1.pillar)
          · rw [if_pos hk]
            cases halk : alookup st.domain_scores k <;>
              simp [file_domain, hcr]
          · rw [if_neg hk]
        · rw [if_neg hdom]
  · intro cr p hmem n hn hres
    exact gate_failed_of_required_false cr p.1 p.2 n hmem hn (by simp [hres])
  · intro s L gates hL hfail
    exact maturity_lt_of_gate_failed s L gates hL hfail

/-- Witness for C10: a raising readme_exists probe yields a non-passed
UNKNOWN result which leaves the discoverability passed counter unchanged,
and the failing level-3 gate of the empty results map caps the achieved
level below 3 even for score-implied level 5. -/
theorem c10_unknown_counts_as_failure_witness :
    (run_check readme_exists_def (Except.error "io error")).passed = false ∧
    (alookup (process_check AuditConfig.default (scan_state [] AuditConfig.default)
        (readme_exists_def, Except.error "io error")).category_scores
        "discoverability").map (fun c => c.passed_checks) =
      (alookup (scan_state [] AuditConfig.default).category_scores
        "discoverability").map (fun c => c.passed_checks) ∧
    (3 ≤ 3 ∧ gate_failed_at (calculate_gates []) 3 = true ∧
      calculate_maturity_with_gates 5 (calculate_gates []) < 3) :=
  ⟨by decide,
   (c10_unknown_counts_as_failure.2.1 AuditConfig.default
     (scan_state [] AuditConfig.default)
     (readme_exists_def, Except.error "io error") "discoverability" (by decide)).1,
   by decide, by decide,
   c10_unknown_counts_as_failure.2.2.2 5 3 (calculate_gates [])
     (by decide) (by decide)⟩

/-- C1 counterexample: a one-check scan whose only check reports PARTIAL
status.  The code gives the discoverability category score 0 (strict
pass ratio), while the spec formula with numeric scores
(1.0/0.5/0.0) gives 1.0 (half of max_points 2), so the claimed category
formula is false on the code. -/
theorem c1_counterexample :
    (alookup partial_scan.category_scores "discoverability").map (fun c => c.score) =
      some 0 ∧
    (alookup partial_scan.category_scores "discoverability").map
      (fun c => spec_category_score c.checks c.max_points) = some 1 ∧
    (0 : ℚ) ≠ 1 := by
  refine ⟨?_, ?_, by norm_num⟩ <;>
  · norm_num [partial_scan, scan_repo, scan_state, init_category_scores, init_pillar_scores,
      init_domain_scores, process_check, run_check, to_model, alookup, alupdate,
      finalize_category, finalize_pillar, file_category, file_pillar, file_domain,
      calculate_gates, calculate_domain_score, calculate_overall_score,
      calculate_maturity_with_gates, gate_walk, gate_failed_at, get_maturity_for_score,
      get_level_for_score, get_grade_for_score, get_grade_description, get_maturity_name,
      resolve_domain_name, generate_fix_first, fix_first_gate_phase,
      fix_first_category_phase, fix_first_category_step, generate_remediation,
      sort_weight_desc,
      insert_weight_desc, GATE_CHECKS, CATEGORY_ORDER, PILLAR_ORDER, DOMAIN_ORDER,
      CATEGORY_DESCRIPTIONS, DOMAIN_DESCRIPTIONS, DOMAIN_WEIGHTS, PILLAR_TO_DOMAIN,
      CATEGORY_TO_DOMAIN, AuditConfig.default, readme_exists_def,
      partial_probe_outcome, ModelCheckResult.passed, MATURITY_NAMES,
      AGENT_GRADE_DESCRIPTIONS, AgentGrade.value, FIX_FIRST_PRIORITIES,
      spec_category_score, spec_numeric_score, level_key_2, level_key_3,
      level_key_4, level_key_5]
    try decide

/-- C1 (corrected/amended): in every scan, a category score equals
(number of checks with status PASSED / total_checks) × max_points and a
domain score equals (number of checks with status PASSED / total_checks)
× 100; a PARTIAL check is not PASSED, so it contributes 0 — not half
credit — to both the category and the domain score. -/
theorem c1_category_and_domain_score_formula (rp rn : String)
    (all : List (CheckDefinition × Except String BaseCheckResult))
    (cfg : AuditConfig) (now : Int) :
    (∀ (k : String) (c : CategoryScore),
      alookup (scan_repo rp rn all cfg now).category_scores k = some c →
      c.total_checks = c.checks.length ∧
      c.passed_checks = (c.checks.filter (fun r => r.passed)).length ∧
      c.score = if c.total_checks = 0 then 0
        else ((c.passed_checks : ℚ) / (c.total_checks : ℚ)) * c.max_points) ∧
    (∀ (k : String) (d : DomainScore),
      alookup (scan_repo rp rn all cfg now).domain_scores k = some d →
      d.total_checks = d.checks.length ∧
      d.passed_checks = (d.checks.filter (fun r => r.passed)).length ∧
      d.score = if d.total_checks = 0 then 0
        else ((d.passed_checks : ℚ) / (d.total_checks : ℚ)) * 100) := by
  constructor
  · intro k c hc
    rw [scan_repo_category_scores] at hc
    rw [alookup_map (fun p => finalize_category p.2)] at hc
    cases halk : alookup (scan_state all cfg).category_scores k with
    | none => rw [halk] at hc; simp at hc
    | some c0 =>
      rw [halk] at hc
      simp only [Option.map_some', Option.some.injEq] at hc
      obtain ⟨h1, h2, h3⟩ := scan_state_cat_inv all cfg (k, c0) (alookup_mem halk)
      subst hc
      unfold finalize_category
      by_cases ht : c0.total_checks > 0
      · rw [if_pos ht]
        dsimp only
        refine ⟨h2, h1, ?_⟩
        rw [if_neg (by omega)]
      · rw [if_neg ht]
        have ht0 : c0.total_checks = 0 := by omega
        exact ⟨h2, h1, by rw [ht0, if_pos rfl]; exact h3⟩
  · intro k d hd
    rw [scan_repo_domain_scores] at hd
    rw [calculate_overall_score_eq] at hd
    dsimp only at hd
    rw [alookup_map (fun p : String × DomainScore =>
      ({ p.2 with
         weighted_score := p.2.score * (alookup DOMAIN_WEIGHTS p.1).getD 0 } :
        DomainScore))] at hd
    rw [alookup_map (fun p : String × DomainScore =>
      ({ p.2 with
         score := calculate_domain_score p.2.passed_checks p.2.total_checks } :
        DomainScore))] at hd
    cases halk : alookup (scan_state all cfg).domain_scores k with
    | none => rw [halk] at hd; simp at hd
    | some d0 =>
      rw [halk] at hd
      simp only [Option.map_some', Option.some.injEq] at hd
      obtain ⟨h1, h2⟩ := scan_state_dom_inv all cfg (k, d0) (alookup_mem halk)
      subst hd
      dsimp only
      refine ⟨h2, h1, ?_⟩
      unfold calculate_domain_score
      by_cases ht : d0.total_checks = 0 <;> simp [ht]

/-- Witness for C1 at the concrete partial scan: the discoverability
category holds one PARTIAL check, zero passed checks, and score 0 = (0/1)
× 2. -/
theorem c1_category_and_domain_score_formula_witness :
    alookup partial_scan.category_scores "discoverability" = some
      { name := "discoverability"
        description := "Repo orientation: README presence and basic onboarding clarity"
        score := 0
        max_points := 2
        checks := [{ name := "readme_exists", category := "discoverability"
                     status := CheckStatus.PARTIAL, evidence := ""
                     suggestion := "Add a README.md file.", weight := 1
                     pillar := "distribution_dx", gate_level := none }]
        passed_checks := 0
        total_checks := 1 } ∧
    (0 : Nat) =
      (List.filter (fun (r : ModelCheckResult) => r.passed)
        [{ name := "readme_exists", category := "discoverability"
           status := CheckStatus.PARTIAL, evidence := ""
           suggestion := "Add a README.md file.", weight := 1
           pillar := "distribution_dx", gate_level := none }]).length := by
  have h : alookup partial_scan.category_scores "discoverability" = some
      { name := "discoverability"
        description := "Repo orientation: README presence and basic onboarding clarity"
        score := 0
        max_points := 2
        checks := [{ name := "readme_exists", category := "discoverability"
                     status := CheckStatus.PARTIAL, evidence := ""
                     suggestion := "Add a README.md file.", weight := 1
                     pillar := "distribution_dx", gate_level := none }]
        passed_checks := 0
        total_checks := 1 } := by
    norm_num [partial_scan, scan_repo, scan_state, init_category_scores, init_pillar_scores,
      init_domain_scores, process_check, run_check, to_model, alookup, alupdate,
      finalize_category, finalize_pillar, file_category, file_pillar, file_domain,
      calculate_gates, calculate_domain_score, calculate_overall_score,
      calculate_maturity_with_gates, gate_walk, gate_failed_at, get_maturity_for_score,
      get_level_for_score, get_grade_for_score, get_grade_description, get_maturity_name,
      resolve_domain_name, generate_fix_first, fix_first_gate_phase,
      fix_first_category_phase, fix_first_category_step, generate_remediation,
      sort_weight_desc,
      insert_weight_desc, GATE_CHECKS, CATEGORY_ORDER, PILLAR_ORDER, DOMAIN_ORDER,
      CATEGORY_DESCRIPTIONS, DOMAIN_DESCRIPTIONS, DOMAIN_WEIGHTS, PILLAR_TO_DOMAIN,
      CATEGORY_TO_DOMAIN, AuditConfig.default, readme_exists_def,
      partial_probe_outcome, ModelCheckResult.passed, MATURITY_NAMES,
      AGENT_GRADE_DESCRIPTIONS, AgentGrade.value, FIX_FIRST_PRIORITIES,
      spec_category_score, spec_numeric_score, level_key_2, level_key_3,
      level_key_4, level_key_5]
    try decide
  refine ⟨h, ?_⟩
  have h2 := ((c1_category_and_domain_score_formula "/repos/demo" "demo"
    [(readme_exists_def, partial_probe_outcome)] AuditConfig.default 0).1
    "discoverability" _ h).2.1
  simpa using h2

/-- Helper: a fold whose step either keeps the accumulator or appends one
new element not yet present preserves Nodup. -/
theorem foldl_guard_nodup {α : Type} (val : α → String)
    (step : List String → α → List String)
    (hstep : ∀ acc x, step acc x = acc ∨ (val x ∉ acc ∧ step acc x = acc ++ [val x])) :
    ∀ (l : List α) (acc : List String), acc.Nodup → (l.foldl step acc).Nodup := by
  intro l
  induction l with
  | nil => intro acc h; simpa using h
  | cons x rest ih =>
    intro acc h
    apply ih
    rcases hstep acc x with h' | ⟨hnot, h'⟩
    · rw [h']; exact h
    · rw [h']
      simp [List.nodup_append, h, hnot]

/-- Helper: Nodup and element origin for the inner suggestion-collecting
fold of generate_fix_first over the checks of one category. -/
theorem fix_first_inner_step_shape (acc : List String) (check : ModelCheckResult) :
    (if !check.passed ∧ check.suggestion ≠ "" ∧ check.suggestion ∉ acc then
        acc ++ [check.suggestion]
      else acc) = acc ∨
    ((!check.passed ∧ check.suggestion ≠ "") ∧
      (if !check.passed ∧ check.suggestion ≠ "" ∧ check.suggestion ∉ acc then
          acc ++ [check.suggestion]
        else acc) = acc ++ [check.suggestion]) := by
  by_cases hc : (!check.passed ∧ check.suggestion ≠ "" ∧ check.suggestion ∉ acc)
  · exact Or.inr ⟨⟨hc.1, hc.2.1⟩, if_pos hc⟩
  · exact Or.inl (if_neg hc)

/-- Helper: the inner guarded fold only appends, never removes. -/
theorem fix_first_inner_extends (checks : List ModelCheckResult) (acc : List String) :
    ∃ t, checks.foldl
      (fun acc check =>
        if !check.passed ∧ check.suggestion ≠ "" ∧ check.suggestion ∉ acc then
          acc ++ [check.suggestion]
        else acc) acc = acc ++ t := by
  apply foldl_extends
  intro acc' check
  rcases fix_first_inner_step_shape acc' check with h | ⟨_, h⟩
  · exact ⟨[], by rw [List.append_nil]; exact h⟩
  · exact ⟨[check.suggestion], h⟩

/-- Helper: the inner guarded fold preserves Nodup. -/
theorem fix_first_inner_nodup (checks : List ModelCheckResult) (acc : List String)
    (h : acc.Nodup) :
    (checks.foldl
      (fun acc check =>
        if !check.passed ∧ check.suggestion ≠ "" ∧ check.suggestion ∉ acc then
          acc ++ [check.suggestion]
        else acc) acc).Nodup := by
  refine foldl_guard_nodup (fun check => check.suggestion) _ ?_ checks acc h
  intro acc' check
  by_cases hc : (!check.passed ∧ check.suggestion ≠ "" ∧ check.suggestion ∉ acc')
  · exact Or.inr ⟨hc.2.2, if_pos hc⟩
  · exact Or.inl (if_neg hc)

/-- Helper: every element of the inner guarded fold is either from the
accumulator or is the nonempty suggestion of a non-passed check of the
list. -/
theorem fix_first_inner_mem (checks : List ModelCheckResult) (acc : List String)
    (s : String)
    (hs : s ∈ checks.foldl
      (fun acc check =>
        if !check.passed ∧ check.suggestion ≠ "" ∧ check.suggestion ∉ acc then
          acc ++ [check.suggestion]
        else acc) acc) :
    s ∈ acc ∨ ∃ chk ∈ checks, chk.passed = false ∧ s = chk.suggestion ∧ s ≠ "" := by
  rcases foldl_guard_mem (fun check => check.suggestion)
      (fun check => !check.passed ∧ check.suggestion ≠ "") _
      (fun acc' check => fix_first_inner_step_shape acc' check)
      checks acc s hs with h | ⟨chk, hmem, ⟨hq1, hq2⟩, hval⟩
  · exact Or.inl h
  · refine Or.inr ⟨chk, hmem, ?_, hval, hval ▸ hq2⟩
    simpa using hq1

/-- Helper: Nodup and element origin for the gate phase of
generate_fix_first. -/
theorem fix_first_gate_phase_spec (r : RepoResult) :
    (fix_first_gate_phase r).Nodup ∧
    ∀ s ∈ fix_first_gate_phase r, ∃ chk ∈ r.failed_checks, s = chk.suggestion ∧
      s ≠ "" ∧ r.maturity_level + 1 ≤ 5 ∧
      ∃ gs, alookup r.gates ("level_" ++ toString (r.maturity_level + 1)) = some gs ∧
        gs.passed = false ∧ chk.name ∈ gs.failed_checks := by
  unfold fix_first_gate_phase
  dsimp only
  by_cases h5 : r.maturity_level + 1 ≤ 5
  · rw [if_pos h5]
    cases hg : alookup r.gates ("level_" ++ toString (r.maturity_level + 1)) with
    | none => simp
    | some gs =>
      by_cases hp : gs.passed = true
      · simp [hp]
      · have hp' : gs.passed = false := by simpa using hp
        simp only [hp', Bool.not_false, if_true]
        constructor
        · refine foldl_guard_nodup (fun check => check.suggestion) _ ?_
            r.failed_checks [] (by simp)
          intro acc' check
          by_cases hc : (check.name ∈ gs.failed_checks ∧ check.suggestion ≠ "" ∧
              check.suggestion ∉ acc')
          · exact Or.inr ⟨hc.2.2, if_pos hc⟩
          · exact Or.inl (if_neg hc)
        · intro s hs
          have hstep : ∀ (acc' : List String) (check : ModelCheckResult),
              (if check.name ∈ gs.failed_checks ∧ check.suggestion ≠ "" ∧
                  check.suggestion ∉ acc' then acc' ++ [check.suggestion] else acc') =
                acc' ∨
              ((check.name ∈ gs.failed_checks ∧ check.suggestion ≠ "") ∧
                (if check.name ∈ gs.failed_checks ∧ check.suggestion ≠ "" ∧
                    check.suggestion ∉ acc' then acc' ++ [check.suggestion]
                  else acc') = acc' ++ [check.suggestion]) := by
            intro acc' check
            by_cases hc : (check.name ∈ gs.failed_checks ∧ check.suggestion ≠ "" ∧
                check.suggestion ∉ acc')
            · exact Or.inr ⟨⟨hc.1, hc.2.1⟩, if_pos hc⟩
            · exact Or.inl (if_neg hc)
          rcases foldl_guard_mem (fun check => check.suggestion)
              (fun check => check.name ∈ gs.failed_checks ∧ check.suggestion ≠ "") _
              hstep r.failed_checks [] s hs with h | ⟨chk, hmem, ⟨hq1, hq2⟩, hval⟩
          · simp at h
          · exact ⟨chk, hmem, hval, hval ▸ hq2, h5, gs, rfl, hp', hq1⟩
  · rw [if_neg h5]
    simp

/-- Helper: a fold whose step appends a chunk of elements satisfying a
per-element property yields the concatenation of per-input chunks, in
input order. -/
theorem foldl_chunks {α : Type} (P : α → String → Prop)
    (step : List String → α → List String)
    (hstep : ∀ (acc : List String) (x : α), ∃ t, step acc x = acc ++ t ∧ ∀ s ∈ t, P x s) :
    ∀ (l : List α) (acc : List String),
      ∃ ts : List (List String), l.foldl step acc = acc ++ ts.flatten ∧
        ts.length = l.length ∧
        ∀ pair ∈ l.zip ts, ∀ s ∈ pair.2, P pair.1 s := by
  intro l
  induction l with
  | nil =>
    intro acc
    exact ⟨[], by simp, rfl, by simp⟩
  | cons x rest ih =>
    intro acc
    obtain ⟨t0, ht0, hP0⟩ := hstep acc x
    obtain ⟨ts, hts, hlen, hzip⟩ := ih (step acc x)
    refine ⟨t0 :: ts, ?_, by simp [hlen], ?_⟩
    · rw [List.foldl_cons, hts, ht0, List.flatten_cons, List.append_assoc]
    · intro pair hpair
      rw [List.zip_cons_cons] at hpair
      rcases List.mem_cons.mp hpair with h | h
      · subst h
        exact hP0
      · exact hzip pair h

/-- Helper: a guarded single-append fold appends exactly the values of the
inputs that satisfied the guard, each carrying its guard property. -/
theorem foldl_guard_chunk {α : Type} (val : α → String) (Q : α → Prop)
    (step : List String → α → List String)
    (hstep : ∀ acc x, step acc x = acc ∨ (Q x ∧ step acc x = acc ++ [val x])) :
    ∀ (l : List α) (acc : List String),
      ∃ t, l.foldl step acc = acc ++ t ∧ ∀ s ∈ t, ∃ x ∈ l, Q x ∧ s = val x := by
  intro l
  induction l with
  | nil => intro acc; exact ⟨[], by simp, by simp⟩
  | cons x rest ih =>
    intro acc
    obtain ⟨t, ht, hmem⟩ := ih (step acc x)
    rcases hstep acc x with h | ⟨hQ, h⟩
    · rw [h] at ht
      refine ⟨t, ?_, ?_⟩
      · rw [List.foldl_cons, h]
        exact ht
      · intro s hs
        obtain ⟨y, hy, hQy, hval⟩ := hmem s hs
        exact ⟨y, List.mem_cons_of_mem _ hy, hQy, hval⟩
    · rw [h] at ht
      refine ⟨val x :: t, ?_, ?_⟩
      · rw [List.foldl_cons, h, ht, List.append_assoc, List.singleton_append]
      · intro s hs
        rcases List.mem_cons.mp hs with h' | h'
        · exact ⟨x, List.mem_cons_self _ _, hQ, h'⟩
        · obtain ⟨y, hy, hQy, hval⟩ := hmem s h'
          exact ⟨y, List.mem_cons_of_mem _ hy, hQy, hval⟩

/-- Helper: the inner guarded fold appends a chunk of nonempty suggestions
of non-passed checks of its list. -/
theorem fix_first_inner_chunk (checks : List ModelCheckResult) (acc : List String) :
    ∃ t, checks.foldl
      (fun acc check =>
        if !check.passed ∧ check.suggestion ≠ "" ∧ check.suggestion ∉ acc then
          acc ++ [check.suggestion]
        else acc) acc = acc ++ t ∧
      ∀ s ∈ t, ∃ chk ∈ checks, chk.passed = false ∧ s = chk.suggestion ∧ s ≠ "" := by
  obtain ⟨t, ht, hmem⟩ := foldl_guard_chunk (fun check => check.suggestion)
    (fun check => !check.passed ∧ check.suggestion ≠ "") _
    (fun acc' check => fix_first_inner_step_shape acc' check) checks acc
  refine ⟨t, ht, ?_⟩
  intro s hs
  obtain ⟨chk, hchk, ⟨hq1, hq2⟩, hval⟩ := hmem s hs
  exact ⟨chk, hchk, by simpa using hq1, hval, hval ▸ hq2⟩

/-- Helper: one category step appends a chunk whose every element is the
nonempty suggestion of a failed check of that step's category. -/
theorem fix_first_category_step_chunk (r : RepoResult) (acc : List String)
    (pr : String × String) :
    ∃ t, fix_first_category_step r acc pr = acc ++ t ∧
      ∀ s ∈ t, ∃ cs, alookup r.category_scores pr.1 = some cs ∧
        cs.passed_checks < cs.total_checks ∧
        ∃ chk ∈ cs.checks, chk.passed = false ∧ s = chk.suggestion ∧ s ≠ "" := by
  unfold fix_first_category_step
  cases h : alookup r.category_scores pr.1 with
  | none => exact ⟨[], (List.append_nil acc).symm, by simp⟩
  | some cs =>
    by_cases hlt : cs.passed_checks < cs.total_checks
    · obtain ⟨t, ht, hmem⟩ := fix_first_inner_chunk cs.checks acc
      refine ⟨t, ?_, ?_⟩
      · show (if cs.passed_checks < cs.total_checks then
            cs.checks.foldl
              (fun acc check =>
                if !check.passed ∧ check.suggestion ≠ "" ∧ check.suggestion ∉ acc then
                  acc ++ [check.suggestion]
                else acc)
              acc
          else acc) = acc ++ t
        rw [if_pos hlt]
        exact ht
      · intro s hs
        obtain ⟨chk, hchk, h1, h2, h3⟩ := hmem s hs
        exact ⟨cs, rfl, hlt, chk, hchk, h1, h2, h3⟩
    · refine ⟨[], ?_, by simp⟩
      show (if cs.passed_checks < cs.total_checks then
          cs.checks.foldl
            (fun acc check =>
              if !check.passed ∧ check.suggestion ≠ "" ∧ check.suggestion ∉ acc then
                acc ++ [check.suggestion]
              else acc)
            acc
        else acc) = acc ++ []
      rw [if_neg hlt, List.append_nil]

/-- Helper: one category step preserves Nodup. -/
theorem fix_first_category_step_nodup (r : RepoResult) (acc : List String)
    (pr : String × String) (h : acc.Nodup) :
    (fix_first_category_step r acc pr).Nodup := by
  unfold fix_first_category_step
  cases hc : alookup r.category_scores pr.1 with
  | none => exact h
  | some cs =>
    by_cases hlt : cs.passed_checks < cs.total_checks
    · show (if cs.passed_checks < cs.total_checks then
          cs.checks.foldl
            (fun acc check =>
              if !check.passed ∧ check.suggestion ≠ "" ∧ check.suggestion ∉ acc then
                acc ++ [check.suggestion]
              else acc)
            acc
        else acc).Nodup
      rw [if_pos hlt]
      exact fix_first_inner_nodup cs.checks acc h
    · show (if cs.passed_checks < cs.total_checks then
          cs.checks.foldl
            (fun acc check =>
              if !check.passed ∧ check.suggestion ≠ "" ∧ check.suggestion ∉ acc then
                acc ++ [check.suggestion]
              else acc)
            acc
        else acc).Nodup
      rw [if_neg hlt]
      exact h

/-- Helper: the category phase appends, after its starting list, one chunk
per FIX_FIRST_PRIORITIES entry, in FIX_FIRST_PRIORITIES order, each chunk
holding only nonempty suggestions of failed checks of its own category. -/
theorem fix_first_category_phase_chunks (r : RepoResult) (acc : List String) :
    ∃ ts : List (List String),
      fix_first_category_phase r acc = acc ++ ts.flatten ∧
      ts.length = FIX_FIRST_PRIORITIES.length ∧
      ∀ pair ∈ FIX_FIRST_PRIORITIES.zip ts, ∀ s ∈ pair.2,
        ∃ cs, alookup r.category_scores pair.1.1 = some cs ∧
          cs.passed_checks < cs.total_checks ∧
          ∃ chk ∈ cs.checks, chk.passed = false ∧ s = chk.suggestion ∧ s ≠ "" := by
  unfold fix_first_category_phase
  exact foldl_chunks _ (fix_first_category_step r)
    (fun acc' pr => fix_first_category_step_chunk r acc' pr) FIX_FIRST_PRIORITIES acc

/-- Helper: the category phase preserves Nodup. -/
theorem fix_first_category_phase_nodup (r : RepoResult) (acc : List String)
    (h : acc.Nodup) : (fix_first_category_phase r acc).Nodup := by
  unfold fix_first_category_phase
  refine foldl_preserve List.Nodup (fix_first_category_step r) ?_ _ _ h
  intro b pr hb
  exact fix_first_category_step_nodup r b pr hb

/-- Helper: an element of the right list of a length-matched zip is paired
with some element of the left list. -/
theorem mem_zip_right {α β : Type} :
    ∀ (l1 : List α) (l2 : List β), l2.length = l1.length →
      ∀ b ∈ l2, ∃ a, (a, b) ∈ l1.zip l2 ∧ a ∈ l1 := by
  intro l1 l2
  induction l2 generalizing l1 with
  | nil => intro _ b hb; simp at hb
  | cons b0 bs ih =>
    intro hlen b hb
    cases l1 with
    | nil => simp at hlen
    | cons a0 as =>
      rcases List.mem_cons.mp hb with h | h
      · subst h
        exact ⟨a0, by rw [List.zip_cons_cons]; exact List.mem_cons_self _ _,
          List.mem_cons_self _ _⟩
      · obtain ⟨a, hpair, ha⟩ := ih as (by simpa using hlen) b h
        exact ⟨a, by rw [List.zip_cons_cons]; exact List.mem_cons_of_mem _ hpair,
          List.mem_cons_of_mem _ ha⟩

/-- Helper: element origin for the category phase. -/
theorem fix_first_category_phase_mem (r : RepoResult) (acc : List String)
    (s : String) (hs : s ∈ fix_first_category_phase r acc) :
    s ∈ acc ∨ ∃ pr ∈ FIX_FIRST_PRIORITIES, ∃ cs,
      alookup r.category_scores pr.1 = some cs ∧
      cs.passed_checks < cs.total_checks ∧
      ∃ chk ∈ cs.checks, chk.passed = false ∧ s = chk.suggestion ∧ s ≠ "" := by
  obtain ⟨ts, heq, hlen, hzip⟩ := fix_first_category_phase_chunks r acc
  rw [heq] at hs
  rcases List.mem_append.mp hs with h | h
  · exact Or.inl h
  · obtain ⟨t, htmem, hst⟩ := List.mem_flatten.mp h
    obtain ⟨pr, hpair, hprmem⟩ := mem_zip_right FIX_FIRST_PRIORITIES ts hlen t htmem
    exact Or.inr ⟨pr, hprmem, hzip (pr, t) hpair s hst⟩

/-- C8: the fix-first list is the 7-capped concatenation of the
gate-blocker phase (suggestions of failed checks blocking the gate of the
next unachieved maturity level) followed by one chunk per
FIX_FIRST_PRIORITIES entry, in exactly that category-priority order
(discoverability, deterministic_setup, build_and_run, test_feedback_loop,
static_guardrails, ci_enforcement, security_and_governance): the chunk
list ts has one entry per priority entry and the chunk zipped with a
priority entry holds only nonempty suggestions of failed checks of that
category, so the walk order is pinned; the list is deduplicated (Nodup)
and holds at most 7 entries. -/
theorem c8_fix_first_structure (r : RepoResult) :
    (generate_fix_first r).length ≤ 7 ∧
    (generate_fix_first r).Nodup ∧
    ∃ ts : List (List String),
      generate_fix_first r = (fix_first_gate_phase r ++ ts.flatten).take 7 ∧
      (∀ s ∈ fix_first_gate_phase r, ∃ chk ∈ r.failed_checks, s = chk.suggestion ∧
        s ≠ "" ∧ r.maturity_level + 1 ≤ 5 ∧
        ∃ gs, alookup r.gates ("level_" ++ toString (r.maturity_level + 1)) = some gs ∧
          gs.passed = false ∧ chk.name ∈ gs.failed_checks) ∧
      ts.length = FIX_FIRST_PRIORITIES.length ∧
      (∀ pair ∈ FIX_FIRST_PRIORITIES.zip ts, ∀ s ∈ pair.2,
        ∃ cs, alookup r.category_scores pair.1.1 = some cs ∧
          cs.passed_checks < cs.total_checks ∧
          ∃ chk ∈ cs.checks, chk.passed = false ∧ s = chk.suggestion ∧ s ≠ "") ∧
      (∀ s ∈ ts.flatten, ∃ pr ∈ FIX_FIRST_PRIORITIES, ∃ cs,
        alookup r.category_scores pr.1 = some cs ∧
        cs.passed_checks < cs.total_checks ∧
        ∃ chk ∈ cs.checks, chk.passed = false ∧ s = chk.suggestion ∧ s ≠ "") := by
  obtain ⟨hg_nodup, hg_mem⟩ := fix_first_gate_phase_spec r
  obtain ⟨ts, hts, hlen, hzip⟩ := fix_first_category_phase_chunks r (fix_first_gate_phase r)
  have hnodup2 : (fix_first_category_phase r (fix_first_gate_phase r)).Nodup :=
    fix_first_category_phase_nodup r _ hg_nodup
  refine ⟨?_, ?_, ts, ?_, hg_mem, hlen, hzip, ?_⟩
  · simp [generate_fix_first]
  · exact (List.take_sublist 7 _).nodup hnodup2
  · rw [generate_fix_first, hts]
  · intro s hst
    have hs2 : s ∈ fix_first_category_phase r (fix_first_gate_phase r) := by
      rw [hts]
      exact List.mem_append_right _ hst
    rcases fix_first_category_phase_mem r _ s hs2 with h | h
    · exfalso
      rw [hts] at hnodup2
      exact (List.nodup_append.mp hnodup2).2.2 h hst
    · exact h

/-- Witness for C8 at an empty repository result. -/
theorem c8_fix_first_structure_witness :
    (generate_fix_first { repo_path := "/repos/demo", repo_name := "demo" }).length ≤ 7 ∧
    (generate_fix_first { repo_path := "/repos/demo", repo_name := "demo" }).Nodup :=
  ⟨(c8_fix_first_structure { repo_path := "/repos/demo", repo_name := "demo" }).1,
   (c8_fix_first_structure { repo_path := "/repos/demo", repo_name := "demo" }).2.1⟩

end ARA
